import Mathlib

/-!
Verification development for the `SpatialData` container core
(`spatialdata/_core/_spatialdata.py`).

The container manages five name-to-element collections (images, labels,
points, polygons, shapes), an optional annotation table, and an optional
backing-store path.  Mutating operations are embedded as pure functions from
the container state (and a model of the file system of Zarr stores) to a new
state together with an optional error; Python code that mutates state and
then raises is embedded by returning the mutated state alongside the error.

Code of the repository that lives outside `_core/_spatialdata.py`
(the element validators of `models.py`, `get_dims` and `_get_transform` of
`core_utils.py`, the store writers/readers of `_io/`, and the bounding-box
point filter of `_spatial_query.py`) is not part of the given sources; those
collaborators are modelled from the spec, each with a doc comment saying so.
-/

/-- Structural axes of a raster or point element (`c` = channel). -/
inductive Axis
  | c | z | y | x
deriving DecidableEq, Repr

/-- Python runtime class of an element, used by the `isinstance` dispatch in
`set_transformation`. -/
inductive ElemClass
  | spatialImage | multiscaleImage | paTable | geoDataFrame | annData
deriving DecidableEq, Repr

/-- An opaque, equality-comparable coordinate transformation
(`BaseTransformation`); the core treats it as a value object. -/
structure BaseTransformation where
  tag : Nat
deriving DecidableEq, Repr

/-- A spatial element.  `eid` models Python object identity (`id(...)`);
`dims` the declared axes; `rows` the coordinate rows of a point-like payload;
`transform` the transformation recorded in the element's own metadata;
`lazyHandle` whether the object is a handle lazily re-read from a store;
`persistOk` whether the external store writer succeeds on this payload. -/
structure Element where
  eid : Nat
  cls : ElemClass
  dims : List Axis
  rows : List (List Int)
  transform : Option BaseTransformation
  lazyHandle : Bool
  persistOk : Bool
deriving DecidableEq, Repr

/-- The annotation table (`AnnData` validated by `TableModel`).
`schemaOk` abstracts the region/region-key/instance-key validation of the
table schema; `persistOk` whether `write_table` succeeds on it. -/
structure AnnTable where
  schemaOk : Bool
  persistOk : Bool
deriving DecidableEq, Repr

/-- The five element kinds that have name-to-element collections. -/
inductive ElemKind
  | images | labels | points | polygons | shapes
deriving DecidableEq, Repr

/-- The top-level Zarr group name of a kind. -/
def kindName : ElemKind → String
  | .images => "images"
  | .labels => "labels"
  | .points => "points"
  | .polygons => "polygons"
  | .shapes => "shapes"

/-- The capitalized kind label used in duplicate-name error messages. -/
def kindLabel : ElemKind → String
  | .images => "Image"
  | .labels => "Labels"
  | .points => "Points"
  | .polygons => "Polygons"
  | .shapes => "Shapes"

/-- Distinguishable errors raised by the container core. -/
inductive SDError
  | duplicateName (kind name : String)
  | schemaViolation
  | unsupportedShape
  | notBacked
  | alreadyExists
  | selfOverwrite
  | elementExists (name : String)
  | notFound
  | ambiguousElement
  | notImplemented
  | persistFailure
  | internalError
deriving DecidableEq, Repr

/-- Association-list get: the binding of the first pair with the given key
(Python dict lookup; the dicts built by the container keep keys unique). -/
def assocGet {α β : Type} [DecidableEq α] : List (α × β) → α → Option β
  | [], _ => none
  | (a, b) :: t, k => if a = k then some b else assocGet t k

/-- Association-list set: replace the binding in place if the key is present
(Python `d[k] = v` keeps the key's position), otherwise append it. -/
def assocSet {α β : Type} [DecidableEq α] : List (α × β) → α → β → List (α × β)
  | [], k, v => [(k, v)]
  | (a, b) :: t, k, v => if a = k then (k, v) :: t else (a, b) :: assocSet t k v

/-- Association-list delete of the first pair with the given key
(Python `del d[k]`). -/
def assocDel {α β : Type} [DecidableEq α] : List (α × β) → α → List (α × β)
  | [], _ => []
  | (a, b) :: t, k => if a = k then t else (a, b) :: assocDel t k

/-- The `SpatialData` container state: five collections, the optional table,
and the optional backing-store path. -/
structure SpatialData where
  images : List (String × Element)
  labels : List (String × Element)
  points : List (String × Element)
  polygons : List (String × Element)
  shapes : List (String × Element)
  table : Option AnnTable
  path : Option String
deriving DecidableEq, Repr

/-- `SpatialData.is_backed`: the container is backed iff `path` is set. -/
def SpatialData.is_backed (sd : SpatialData) : Bool :=
  sd.path.isSome

/-- Modelled from the spec (missing `core_utils.get_dims`): dimensionality is
computed from the element's declared axes. -/
def get_dims (e : Element) : List Axis :=
  e.dims

/-- Modelled from the spec (missing `Image2DModel.validate`): a 2D image has
exactly the 3-with-channel axes `cyx`. -/
def imageValid2D (e : Element) : Bool :=
  e.dims = [Axis.c, Axis.y, Axis.x]

/-- Modelled from the spec (missing `Image3DModel.validate`): a 3D image has
exactly the 4-with-channel axes `czyx`. -/
def imageValid3D (e : Element) : Bool :=
  e.dims = [Axis.c, Axis.z, Axis.y, Axis.x]

/-- Modelled from the spec (missing `Labels2DModel.validate`): 2D labels have
exactly the axes `yx`. -/
def labelsValid2D (e : Element) : Bool :=
  e.dims = [Axis.y, Axis.x]

/-- Modelled from the spec (missing `Labels3DModel.validate`): 3D labels have
exactly the axes `zyx`. -/
def labelsValid3D (e : Element) : Bool :=
  e.dims = [Axis.z, Axis.y, Axis.x]

/-- Modelled from the spec (missing `PointsModel.validate`): a points payload
must carry the required transformation metadata key. -/
def pointsValid (e : Element) : Bool :=
  e.transform.isSome

/-- Modelled from the spec (missing `PolygonsModel.validate`): a polygons
payload must record a transformation in its element-level attributes. -/
def polygonsValid (e : Element) : Bool :=
  e.transform.isSome

/-- Modelled from the spec (missing `ShapesModel.validate`): a shapes payload
must have all transformation metadata present. -/
def shapesValid (e : Element) : Bool :=
  e.transform.isSome

/-- Modelled from the spec (missing `TableModel.validate`): the table schema
check, abstracted as the table's recorded validity bit. -/
def tableValid (t : AnnTable) : Bool :=
  t.schemaOk

/-- Shared tail of `SpatialData._add_image_in_memory` after the
duplicate/delete step: dispatch on the number of declared axes, validate
against the matching image schema, and insert on success. -/
def addImageValidated (sd : SpatialData) (name : String) (image : Element) :
    SpatialData × Option SDError :=
  if (get_dims image).length = 3 then
    if imageValid2D image then
      ({ sd with images := assocSet sd.images name image }, none)
    else (sd, some .schemaViolation)
  else if (get_dims image).length = 4 then
    if imageValid3D image then
      ({ sd with images := assocSet sd.images name image }, none)
    else (sd, some .schemaViolation)
  else (sd, some .unsupportedShape)

/-- `SpatialData._add_image_in_memory`: duplicate check (delete first when
overwriting), then validate-and-insert by dimensionality. -/
def _add_image_in_memory (sd : SpatialData) (name : String) (image : Element)
    (overwrite : Bool) : SpatialData × Option SDError :=
  if (assocGet sd.images name).isSome then
    if !overwrite then (sd, some (.duplicateName "Image" name))
    else addImageValidated { sd with images := assocDel sd.images name } name image
  else addImageValidated sd name image

/-- Shared tail of `SpatialData._add_labels_in_memory` after the
duplicate/delete step. -/
def addLabelsValidated (sd : SpatialData) (name : String) (labels : Element) :
    SpatialData × Option SDError :=
  if (get_dims labels).length = 2 then
    if labelsValid2D labels then
      ({ sd with labels := assocSet sd.labels name labels }, none)
    else (sd, some .schemaViolation)
  else if (get_dims labels).length = 3 then
    if labelsValid3D labels then
      ({ sd with labels := assocSet sd.labels name labels }, none)
    else (sd, some .schemaViolation)
  else (sd, some .unsupportedShape)

/-- `SpatialData._add_labels_in_memory`. -/
def _add_labels_in_memory (sd : SpatialData) (name : String) (labels : Element)
    (overwrite : Bool) : SpatialData × Option SDError :=
  if (assocGet sd.labels name).isSome then
    if !overwrite then (sd, some (.duplicateName "Labels" name))
    else addLabelsValidated { sd with labels := assocDel sd.labels name } name labels
  else addLabelsValidated sd name labels

/-- `SpatialData._add_points_in_memory`. -/
def _add_points_in_memory (sd : SpatialData) (name : String) (points : Element)
    (overwrite : Bool) : SpatialData × Option SDError :=
  if (assocGet sd.points name).isSome then
    if !overwrite then (sd, some (.duplicateName "Points" name))
    else
      let sd := { sd with points := assocDel sd.points name }
      if pointsValid points then
        ({ sd with points := assocSet sd.points name points }, none)
      else (sd, some .schemaViolation)
  else
    if pointsValid points then
      ({ sd with points := assocSet sd.points name points }, none)
    else (sd, some .schemaViolation)

/-- `SpatialData._add_polygons_in_memory`. -/
def _add_polygons_in_memory (sd : SpatialData) (name : String) (polygons : Element)
    (overwrite : Bool) : SpatialData × Option SDError :=
  if (assocGet sd.polygons name).isSome then
    if !overwrite then (sd, some (.duplicateName "Polygons" name))
    else
      let sd := { sd with polygons := assocDel sd.polygons name }
      if polygonsValid polygons then
        ({ sd with polygons := assocSet sd.polygons name polygons }, none)
      else (sd, some .schemaViolation)
  else
    if polygonsValid polygons then
      ({ sd with polygons := assocSet sd.polygons name polygons }, none)
    else (sd, some .schemaViolation)

/-- `SpatialData._add_shapes_in_memory`. -/
def _add_shapes_in_memory (sd : SpatialData) (name : String) (shapes : Element)
    (overwrite : Bool) : SpatialData × Option SDError :=
  if (assocGet sd.shapes name).isSome then
    if !overwrite then (sd, some (.duplicateName "Shapes" name))
    else
      let sd := { sd with shapes := assocDel sd.shapes name }
      if shapesValid shapes then
        ({ sd with shapes := assocSet sd.shapes name shapes }, none)
      else (sd, some .schemaViolation)
  else
    if shapesValid shapes then
      ({ sd with shapes := assocSet sd.shapes name shapes }, none)
    else (sd, some .schemaViolation)

/-- The collection of a kind inside a container. -/
def collOf (k : ElemKind) (sd : SpatialData) : List (String × Element) :=
  match k with
  | .images => sd.images
  | .labels => sd.labels
  | .points => sd.points
  | .polygons => sd.polygons
  | .shapes => sd.shapes

/-- Kind-indexed dispatcher over the five in-memory adders. -/
def addInMemoryByKind (k : ElemKind) (sd : SpatialData) (name : String)
    (e : Element) (overwrite : Bool) : SpatialData × Option SDError :=
  match k with
  | .images => _add_image_in_memory sd name e overwrite
  | .labels => _add_labels_in_memory sd name e overwrite
  | .points => _add_points_in_memory sd name e overwrite
  | .polygons => _add_polygons_in_memory sd name e overwrite
  | .shapes => _add_shapes_in_memory sd name e overwrite

/-- A Zarr store: the set of existing group paths, array payloads per path,
the optional persisted table, and per-path coordinate-transformation
metadata.  Modelled from the spec's store adapter contract (the concrete
`zarr`/`ome_zarr` backends are external collaborators). -/
structure ZarrStore where
  groups : List (List String)
  data : List (List String × Element)
  tableData : Option AnnTable
  transforms : List (List String × BaseTransformation)
deriving DecidableEq, Repr

/-- The empty store produced by creating a fresh Zarr store (`mode="w"`). -/
def ZarrStore.emptyStore : ZarrStore :=
  ⟨[], [], none, []⟩

/-- Whether `q` lies at or below the group path `p`. -/
def pathUnder : List String → List String → Bool
  | [], _ => true
  | _ :: _, [] => false
  | a :: as, b :: bs => a = b && pathUnder as bs

/-- `create_group`/`require_group`: ensure a group path exists. -/
def ZarrStore.createGroup (st : ZarrStore) (p : List String) : ZarrStore :=
  if p ∈ st.groups then st else { st with groups := st.groups ++ [p] }

/-- Zarr membership test `name in group`: a subgroup or payload at the path. -/
def ZarrStore.hasKey (st : ZarrStore) (p : List String) : Bool :=
  decide (p ∈ st.groups) || (assocGet st.data p).isSome

/-- `del group[name]`: remove the subtree rooted at the path. -/
def ZarrStore.deleteSub (st : ZarrStore) (p : List String) : ZarrStore :=
  { st with
    groups := st.groups.filter (fun q => !(pathUnder p q)),
    data := st.data.filter (fun kv => !(pathUnder p kv.1)),
    transforms := st.transforms.filter (fun kv => !(pathUnder p kv.1)) }

/-- Modelled from the spec (missing `_io.write` writers): persist a payload
at a path, creating its group and replacing any previous payload there. -/
def ZarrStore.writeData (st : ZarrStore) (p : List String) (e : Element) : ZarrStore :=
  let st := st.createGroup p
  { st with data := assocSet st.data p e }

/-- `write_table`: persist the annotation table. -/
def ZarrStore.writeTable (st : ZarrStore) (t : AnnTable) : ZarrStore :=
  { st with tableData := some t }

/-- The file system: a mapping from store locations to Zarr stores. -/
def FS : Type :=
  List (String × ZarrStore)

instance : DecidableEq FS := by
  unfold FS
  infer_instance

/-- `parse_url(location, mode="r") is not None`: the location holds a store. -/
def storeExists (fs : FS) (loc : String) : Bool :=
  (assocGet fs loc).isSome

/-- Replace or create the store at a location. -/
def fsSet (fs : FS) (loc : String) (st : ZarrStore) : FS :=
  assocSet fs loc st

/-- Apply a store update at a location (no effect if the store is absent). -/
def fsUpdate (fs : FS) (loc : String) (f : ZarrStore → ZarrStore) : FS :=
  match assocGet fs loc with
  | some st => assocSet fs loc (f st)
  | none => fs

/-- Modelled from the spec (missing `_io.read` lazy readers
`_read_multiscale`/`_read_points`): reloading a just-persisted element
yields a lazily-evaluated handle with identical metadata. -/
def reloadElement (e : Element) : Element :=
  { e with lazyHandle := true }

/-- `SpatialData._init_add_element`: require a backed container, open its
store, ensure the kind-level group (labels are handled by `ome-zarr-py`),
delete the named subgroup when overwriting or reject an existing name
otherwise, and return the group the payload writer receives (the kind-level
group for non-labels, the root for labels).  The unbound-variable `NameError`
of the labels-overwrite branch without a labels group, and the attribute
error of opening a missing store, are both embedded as `internalError`. -/
def _init_add_element (sd : SpatialData) (fs : FS) (name : String)
    (element_type : ElemKind) (overwrite : Bool) :
    FS × Except SDError (List String) :=
  match sd.path with
  | none => (fs, .error .notBacked)
  | some p =>
    match assocGet fs p with
    | none => (fs, .error .internalError)
    | some st0 =>
      let st1 := if element_type = .labels then st0
        else st0.createGroup [kindName element_type]
      if overwrite then
        if element_type = .labels then
          if [kindName .labels] ∈ st1.groups then
            let st2 := if st1.hasKey [kindName .labels, name] then
                st1.deleteSub [kindName .labels, name]
              else st1
            (fsSet fs p st2, .ok [])
          else (fsSet fs p st1, .error .internalError)
        else
          let st2 := if st1.hasKey [kindName element_type, name] then
              st1.deleteSub [kindName element_type, name]
            else st1
          (fsSet fs p st2, .ok [kindName element_type])
      else
        if element_type = .labels then
          if [kindName .labels] ∈ st1.groups then
            if st1.hasKey [kindName .labels, name] then
              (fsSet fs p st1, .error (.elementExists name))
            else (fsSet fs p st1, .ok [])
          else (fsSet fs p st1, .ok [])
        else
          if st1.hasKey [kindName element_type, name] then
            (fsSet fs p st1, .error (.elementExists name))
          else (fsSet fs p st1, .ok [kindName element_type])

/-- `SpatialData.add_image`: optional in-memory add, then, when backed,
initialize the element group, persist the payload (`write_image`), and
replace the in-memory entry with the handle reloaded from the store. -/
def add_image (sd : SpatialData) (fs : FS) (name : String) (image : Element)
    (overwrite : Bool) (addInMemory : Bool) :
    SpatialData × FS × Option SDError :=
  match (if addInMemory then _add_image_in_memory sd name image overwrite
    else (sd, none)) with
  | (sd1, some err) => (sd1, fs, some err)
  | (sd1, none) =>
    match sd1.path with
    | none => (sd1, fs, none)
    | some p =>
      match _init_add_element sd1 fs name .images overwrite with
      | (fs1, .error err) => (sd1, fs1, some err)
      | (fs1, .ok groupPath) =>
        match assocGet sd1.images name with
        | none => (sd1, fs1, some .internalError)
        | some el =>
          if el.persistOk then
            let fs2 := fsUpdate fs1 p (fun st => st.writeData (groupPath ++ [name]) el)
            match _add_image_in_memory sd1 name (reloadElement el) true with
            | (sd2, e2) => (sd2, fs2, e2)
          else (sd1, fs1, some .persistFailure)

/-- `SpatialData.add_labels`: as `add_image`, with the payload written under
the root-level `labels` group. -/
def add_labels (sd : SpatialData) (fs : FS) (name : String) (labels : Element)
    (overwrite : Bool) (addInMemory : Bool) :
    SpatialData × FS × Option SDError :=
  match (if addInMemory then _add_labels_in_memory sd name labels overwrite
    else (sd, none)) with
  | (sd1, some err) => (sd1, fs, some err)
  | (sd1, none) =>
    match sd1.path with
    | none => (sd1, fs, none)
    | some p =>
      match _init_add_element sd1 fs name .labels overwrite with
      | (fs1, .error err) => (sd1, fs1, some err)
      | (fs1, .ok _) =>
        match assocGet sd1.labels name with
        | none => (sd1, fs1, some .internalError)
        | some el =>
          if el.persistOk then
            let fs2 := fsUpdate fs1 p (fun st => st.writeData ["labels", name] el)
            match _add_labels_in_memory sd1 name (reloadElement el) true with
            | (sd2, e2) => (sd2, fs2, e2)
          else (sd1, fs1, some .persistFailure)

/-- `SpatialData.add_points`: as `add_image`, for point payloads. -/
def add_points (sd : SpatialData) (fs : FS) (name : String) (points : Element)
    (overwrite : Bool) (addInMemory : Bool) :
    SpatialData × FS × Option SDError :=
  match (if addInMemory then _add_points_in_memory sd name points overwrite
    else (sd, none)) with
  | (sd1, some err) => (sd1, fs, some err)
  | (sd1, none) =>
    match sd1.path with
    | none => (sd1, fs, none)
    | some p =>
      match _init_add_element sd1 fs name .points overwrite with
      | (fs1, .error err) => (sd1, fs1, some err)
      | (fs1, .ok groupPath) =>
        match assocGet sd1.points name with
        | none => (sd1, fs1, some .internalError)
        | some el =>
          if el.persistOk then
            let fs2 := fsUpdate fs1 p (fun st => st.writeData (groupPath ++ [name]) el)
            match _add_points_in_memory sd1 name (reloadElement el) true with
            | (sd2, e2) => (sd2, fs2, e2)
          else (sd1, fs1, some .persistFailure)

/-- `SpatialData.add_polygons`: persist the payload when backed; the
in-memory entry is not reloaded since a `GeoDataFrame` is not lazily
loaded. -/
def add_polygons (sd : SpatialData) (fs : FS) (name : String) (polygons : Element)
    (overwrite : Bool) (addInMemory : Bool) :
    SpatialData × FS × Option SDError :=
  match (if addInMemory then _add_polygons_in_memory sd name polygons overwrite
    else (sd, none)) with
  | (sd1, some err) => (sd1, fs, some err)
  | (sd1, none) =>
    match sd1.path with
    | none => (sd1, fs, none)
    | some p =>
      match _init_add_element sd1 fs name .polygons overwrite with
      | (fs1, .error err) => (sd1, fs1, some err)
      | (fs1, .ok groupPath) =>
        match assocGet sd1.polygons name with
        | none => (sd1, fs1, some .internalError)
        | some el =>
          if el.persistOk then
            (sd1, fsUpdate fs1 p (fun st => st.writeData (groupPath ++ [name]) el), none)
          else (sd1, fs1, some .persistFailure)

/-- `SpatialData.add_shapes`: persist the payload when backed; the in-memory
entry is not reloaded since an `AnnData` is not lazily loaded. -/
def add_shapes (sd : SpatialData) (fs : FS) (name : String) (shapes : Element)
    (overwrite : Bool) (addInMemory : Bool) :
    SpatialData × FS × Option SDError :=
  match (if addInMemory then _add_shapes_in_memory sd name shapes overwrite
    else (sd, none)) with
  | (sd1, some err) => (sd1, fs, some err)
  | (sd1, none) =>
    match sd1.path with
    | none => (sd1, fs, none)
    | some p =>
      match _init_add_element sd1 fs name .shapes overwrite with
      | (fs1, .error err) => (sd1, fs1, some err)
      | (fs1, .ok groupPath) =>
        match assocGet sd1.shapes name with
        | none => (sd1, fs1, some .internalError)
        | some el =>
          if el.persistOk then
            (sd1, fsUpdate fs1 p (fun st => st.writeData (groupPath ++ [name]) el), none)
          else (sd1, fs1, some .persistFailure)

/-- Result type of a mutating container operation: the (possibly partially
mutated) container, the file system, and the raised error, if any. -/
def SDResult : Type :=
  SpatialData × FS × Option SDError

instance : DecidableEq SDResult := by
  unfold SDResult FS
  infer_instance


/-- The per-key loop of `write` over the image names captured before the
loop: `self.add_image(name=el, image=self.images[el], _add_in_memory=False)`
(a missing key would be a `KeyError` at the call site). -/
def writeImagesLoop : List String → SpatialData → FS → SDResult
  | [], sd, fs => (sd, fs, none)
  | k :: ks, sd, fs =>
    match assocGet sd.images k with
    | none => (sd, fs, some .internalError)
    | some img =>
      match add_image sd fs k img false false with
      | (sd', fs', some e) => (sd', fs', some e)
      | (sd', fs', none) => writeImagesLoop ks sd' fs'

/-- The per-key loop of `write` over the label names. -/
def writeLabelsLoop : List String → SpatialData → FS → SDResult
  | [], sd, fs => (sd, fs, none)
  | k :: ks, sd, fs =>
    match assocGet sd.labels k with
    | none => (sd, fs, some .internalError)
    | some el =>
      match add_labels sd fs k el false false with
      | (sd', fs', some e) => (sd', fs', some e)
      | (sd', fs', none) => writeLabelsLoop ks sd' fs'

/-- The per-key loop of `write` over the point names. -/
def writePointsLoop : List String → SpatialData → FS → SDResult
  | [], sd, fs => (sd, fs, none)
  | k :: ks, sd, fs =>
    match assocGet sd.points k with
    | none => (sd, fs, some .internalError)
    | some el =>
      match add_points sd fs k el false false with
      | (sd', fs', some e) => (sd', fs', some e)
      | (sd', fs', none) => writePointsLoop ks sd' fs'

/-- The per-key loop of `write` over the polygon names. -/
def writePolygonsLoop : List String → SpatialData → FS → SDResult
  | [], sd, fs => (sd, fs, none)
  | k :: ks, sd, fs =>
    match assocGet sd.polygons k with
    | none => (sd, fs, some .internalError)
    | some el =>
      match add_polygons sd fs k el false false with
      | (sd', fs', some e) => (sd', fs', some e)
      | (sd', fs', none) => writePolygonsLoop ks sd' fs'

/-- The per-key loop of `write` over the shape names. -/
def writeShapesLoop : List String → SpatialData → FS → SDResult
  | [], sd, fs => (sd, fs, none)
  | k :: ks, sd, fs =>
    match assocGet sd.shapes k with
    | none => (sd, fs, some .internalError)
    | some el =>
      match add_shapes sd fs k el false false with
      | (sd', fs', some e) => (sd', fs', some e)
      | (sd', fs', none) => writeShapesLoop ks sd' fs'

/-- The images phase of `write`: when the collection is non-empty, create the
top-level group and persist element-by-element. -/
def imagesPhase (p : String) (sd : SpatialData) (fs : FS) : SDResult :=
  if sd.images.length ≠ 0 then
    writeImagesLoop (sd.images.map Prod.fst) sd
      (fsUpdate fs p (fun st => st.createGroup ["images"]))
  else (sd, fs, none)

/-- The labels phase of `write`. -/
def labelsPhase (p : String) (sd : SpatialData) (fs : FS) : SDResult :=
  if sd.labels.length ≠ 0 then
    writeLabelsLoop (sd.labels.map Prod.fst) sd
      (fsUpdate fs p (fun st => st.createGroup ["labels"]))
  else (sd, fs, none)

/-- The points phase of `write`. -/
def pointsPhase (p : String) (sd : SpatialData) (fs : FS) : SDResult :=
  if sd.points.length ≠ 0 then
    writePointsLoop (sd.points.map Prod.fst) sd
      (fsUpdate fs p (fun st => st.createGroup ["points"]))
  else (sd, fs, none)

/-- The polygons phase of `write`. -/
def polygonsPhase (p : String) (sd : SpatialData) (fs : FS) : SDResult :=
  if sd.polygons.length ≠ 0 then
    writePolygonsLoop (sd.polygons.map Prod.fst) sd
      (fsUpdate fs p (fun st => st.createGroup ["polygons"]))
  else (sd, fs, none)

/-- The shapes phase of `write`. -/
def shapesPhase (p : String) (sd : SpatialData) (fs : FS) : SDResult :=
  if sd.shapes.length ≠ 0 then
    writeShapesLoop (sd.shapes.map Prod.fst) sd
      (fsUpdate fs p (fun st => st.createGroup ["shapes"]))
  else (sd, fs, none)

/-- The table phase of `write`: create the `table` group and persist the
table (`write_table` failing is a persistence failure). -/
def tablePhase (p : String) (sd : SpatialData) (fs : FS) : SDResult :=
  match sd.table with
  | none => (sd, fs, none)
  | some t =>
    let fs1 := fsUpdate fs p (fun st => st.createGroup ["table"])
    if t.persistOk then
      (sd, fsUpdate fs1 p (fun st => st.writeTable t), none)
    else (sd, fs1, some .persistFailure)

/-- The `try` block of `write`: persist every non-empty collection and the
table, in source order, aborting at the first raised error. -/
def writeTry (p : String) (sd : SpatialData) (fs : FS) : SDResult :=
  match imagesPhase p sd fs with
  | (sd1, fs1, some e) => (sd1, fs1, some e)
  | (sd1, fs1, none) =>
    match labelsPhase p sd1 fs1 with
    | (sd2, fs2, some e) => (sd2, fs2, some e)
    | (sd2, fs2, none) =>
      match pointsPhase p sd2 fs2 with
      | (sd3, fs3, some e) => (sd3, fs3, some e)
      | (sd3, fs3, none) =>
        match polygonsPhase p sd3 fs3 with
        | (sd4, fs4, some e) => (sd4, fs4, some e)
        | (sd4, fs4, none) =>
          match shapesPhase p sd4 fs4 with
          | (sd5, fs5, some e) => (sd5, fs5, some e)
          | (sd5, fs5, none) => tablePhase p sd5 fs5

/-- `SpatialData.write`: reject overwriting the current backing location;
reject an existing target without `overwrite`; otherwise create a fresh
store, set `path`, and persist everything — any exception in the `try` block
resets `path` to `None` and is re-raised. -/
def SpatialData.write (sd : SpatialData) (fs : FS) (file_path : String)
    (overwrite : Bool) : SDResult :=
  if sd.path = some file_path then (sd, fs, some .selfOverwrite)
  else if !overwrite && storeExists fs file_path then (sd, fs, some .alreadyExists)
  else
    let fs1 := fsSet fs file_path ZarrStore.emptyStore
    let sd1 := { sd with path := some file_path }
    match writeTry file_path sd1 fs1 with
    | (sd2, fs2, some e) => ({ sd2 with path := none }, fs2, some e)
    | (sd2, fs2, none) => (sd2, fs2, none)

/-- `SpatialData.set_transformation_in_memory`: the method body is empty
(only a docstring) — it performs no mutation at all. -/
def set_transformation_in_memory (_element : Element)
    (_transformation : BaseTransformation) : Unit :=
  ()

/-- `SpatialData._get_group_for_element`: open the backed store and require
the kind-level and element-level groups. -/
def _get_group_for_element (sd : SpatialData) (fs : FS) (name : String)
    (element_type : ElemKind) : FS × Except SDError (List String) :=
  match sd.path with
  | none => (fs, .error .internalError)
  | some p =>
    match assocGet fs p with
    | none => (fs, .error .internalError)
    | some st =>
      let st1 := (st.createGroup [kindName element_type]).createGroup
        [kindName element_type, name]
      (fsSet fs p st1, .ok [kindName element_type, name])

/-- The entries of a collection whose value is the same Python object as the
given element (`id(element_value) == id(element)`). -/
def scanColl (k : ElemKind) (d : List (String × Element)) (e : Element) :
    List (ElemKind × String) :=
  (d.filter (fun kv => kv.2.eid = e.eid)).map (fun kv => (k, kv.1))

/-- `SpatialData.set_transformation`: the (empty) in-memory update, then the
identity search across the five collections — zero matches or several
matches raise — and, when backed, the rewrite of the persisted
transformation metadata (raster for `SpatialImage`, unimplemented for
`MultiscaleSpatialImage`, non-raster otherwise). -/
def set_transformation (sd : SpatialData) (fs : FS) (element : Element)
    (transformation : BaseTransformation) : SDResult :=
  let _ := set_transformation_in_memory element transformation
  let found := scanColl .images sd.images element ++
    scanColl .labels sd.labels element ++
    scanColl .points sd.points element ++
    scanColl .polygons sd.polygons element ++
    scanColl .shapes sd.shapes element
  match found with
  | [] => (sd, fs, some .notFound)
  | [(ft, fn)] =>
    match sd.path with
    | none => (sd, fs, none)
    | some p =>
      match _get_group_for_element sd fs fn ft with
      | (fs1, .error e) => (sd, fs1, some e)
      | (fs1, .ok groupPath) =>
        match element.cls with
        | .spatialImage =>
          (sd, fsUpdate fs1 p
            (fun st => { st with
              transforms := assocSet st.transforms groupPath transformation }), none)
        | .multiscaleImage => (sd, fs1, some .notImplemented)
        | _ =>
          (sd, fsUpdate fs1 p
            (fun st => { st with
              transforms := assocSet st.transforms groupPath transformation }), none)
  | _ :: _ :: _ => (sd, fs, some .ambiguousElement)

/-- `SpatialData.get_transformation`, delegating to `_get_transform`.
Modelled from the spec (missing `core_utils._get_transform`): a pure
projection reading the transformation recorded in the element's own
metadata. -/
def get_transformation (element : Element) : Option BaseTransformation :=
  element.transform

/-- An axis-aligned bounding-box request: per-axis inclusive bounds.
Modelled from the spec (missing `_spatial_query.BoundingBoxRequest`);
coordinates are embedded as integers. -/
structure BoundingBoxRequest where
  bounds : List (Axis × Int × Int)
deriving DecidableEq, Repr

/-- The coordinate of a row at a named axis, following the element's
declared axis order. -/
def coordOf : List Axis → List Int → Axis → Option Int
  | [], _, _ => none
  | _, [], _ => none
  | d :: ds, v :: vs, a => if d = a then some v else coordOf ds vs a

/-- Whether a coordinate row satisfies every requested axis bound
(inclusive at both ends); a row lacking a requested axis fails. -/
def rowInBox (dims : List Axis) (row : List Int) (req : BoundingBoxRequest) : Bool :=
  req.bounds.all (fun b =>
    match coordOf dims row b.1 with
    | some v => decide (b.2.1 ≤ v) && decide (v ≤ b.2.2)
    | none => false)

/-- Restrict a points element to the rows inside the box. -/
def filterPoints (e : Element) (req : BoundingBoxRequest) : Element :=
  { e with rows := e.rows.filter (fun r => rowInBox e.dims r req) }

/-- Modelled from the spec (missing
`_spatial_query._bounding_box_query_points_dict`): filter every points
element row-wise by the box and omit elements left with no rows. -/
def _bounding_box_query_points_dict (points_dict : List (String × Element))
    (request : BoundingBoxRequest) : List (String × Element) :=
  (points_dict.map (fun kv => (kv.1, filterPoints kv.2 request))).filter
    (fun kv => kv.2.rows.length ≠ 0)

/-- Fold one collection through an in-memory adder, aborting at the first
validation error, as the constructor does per collection. -/
def runAdds (adder : SpatialData → String → Element → Bool → SpatialData × Option SDError) :
    List (String × Element) → SpatialData → Except SDError SpatialData
  | [], sd => .ok sd
  | (k, v) :: t, sd =>
    match adder sd k v false with
    | (_, some e) => .error e
    | (sd', none) => runAdds adder t sd'

/-- `SpatialData.__init__`: start unbacked and empty, add every entry of
every argument collection through the validating in-memory adders (in source
order: images, labels, polygons, shapes, points), then validate the table.
A validation error aborts construction. -/
def SpatialData.init (images labels points polygons shapes : List (String × Element))
    (table : Option AnnTable) : Except SDError SpatialData :=
  match runAdds _add_image_in_memory images ⟨[], [], [], [], [], none, none⟩ with
  | .error e => .error e
  | .ok sd1 =>
    match runAdds _add_labels_in_memory labels sd1 with
    | .error e => .error e
    | .ok sd2 =>
      match runAdds _add_polygons_in_memory polygons sd2 with
      | .error e => .error e
      | .ok sd3 =>
        match runAdds _add_shapes_in_memory shapes sd3 with
        | .error e => .error e
        | .ok sd4 =>
          match runAdds _add_points_in_memory points sd4 with
          | .error e => .error e
          | .ok sd5 =>
            match table with
            | none => .ok sd5
            | some t =>
              if tableValid t then .ok { sd5 with table := some t }
              else .error .schemaViolation

/-- `QueryManager.bounding_box`: filter the point elements and build a brand
new container holding only the requested points. -/
def QueryManager.bounding_box (sd : SpatialData) (request : BoundingBoxRequest) :
    Except SDError SpatialData :=
  let requested_points := _bounding_box_query_points_dict sd.points request
  SpatialData.init [] [] requested_points [] [] none

/-- The public mutating/query operations of the container facade. -/
inductive Op
  | addImage (name : String) (e : Element) (ov : Bool)
  | addLabels (name : String) (e : Element) (ov : Bool)
  | addPoints (name : String) (e : Element) (ov : Bool)
  | addPolygons (name : String) (e : Element) (ov : Bool)
  | addShapes (name : String) (e : Element) (ov : Bool)
  | writeOp (loc : String) (ov : Bool)
  | setTransform (e : Element) (t : BaseTransformation)
  | boundingBoxQuery (req : BoundingBoxRequest)
deriving DecidableEq, Repr

/-- Whether an operation is a `write`. -/
def Op.isWriteOp : Op → Bool
  | .writeOp _ _ => true
  | _ => false

/-- One public operation applied to a container and the file system; a
query returns its fresh result container separately and leaves the source
container as the post-state. -/
def stepOp : Op → SpatialData → FS → SDResult
  | .addImage n e ov, sd, fs => add_image sd fs n e ov true
  | .addLabels n e ov, sd, fs => add_labels sd fs n e ov true
  | .addPoints n e ov, sd, fs => add_points sd fs n e ov true
  | .addPolygons n e ov, sd, fs => add_polygons sd fs n e ov true
  | .addShapes n e ov, sd, fs => add_shapes sd fs n e ov true
  | .writeOp loc ov, sd, fs => SpatialData.write sd fs loc ov
  | .setTransform e t, sd, fs => set_transformation sd fs e t
  | .boundingBoxQuery req, sd, fs =>
    match QueryManager.bounding_box sd req with
    | .ok _ => (sd, fs, none)
    | .error e => (sd, fs, some e)

/-- The payload stored at a path of the store at a location, if any. -/
def fsDataAt (fs : FS) (loc : String) (q : List String) : Option Element :=
  match assocGet fs loc with
  | some st => assocGet st.data q
  | none => none

/-- The empty file system. -/
def fsEmpty : FS :=
  []

/-- A sample transformation. -/
def trA : BaseTransformation :=
  ⟨0⟩

/-- A second, distinct sample transformation. -/
def trB : BaseTransformation :=
  ⟨1⟩

/-- A valid `cyx` image whose persistence succeeds. -/
def elImgOk : Element :=
  ⟨1, .spatialImage, [.c, .y, .x], [], some trA, false, true⟩

/-- A valid `cyx` image whose persistence fails. -/
def elImgBad : Element :=
  ⟨2, .spatialImage, [.c, .y, .x], [], some trA, false, false⟩

/-- A valid points element with three coordinate rows. -/
def elPtsQ : Element :=
  ⟨3, .paTable, [.x, .y], [[1, 1], [6, 6], [5, 5]], some trA, false, true⟩

/-- A valid points element whose persistence fails. -/
def elPtsBad : Element :=
  ⟨4, .paTable, [.x, .y], [[0, 0]], some trA, false, false⟩

/-- A valid polygons element whose persistence succeeds. -/
def elPoly : Element :=
  ⟨5, .geoDataFrame, [.x, .y], [], some trA, false, true⟩

/-- A valid shapes element whose persistence succeeds. -/
def elShp : Element :=
  ⟨6, .annData, [.x, .y], [], some trA, false, true⟩

/-- A valid `yx` labels element whose persistence succeeds. -/
def elLabOk : Element :=
  ⟨8, .spatialImage, [.y, .x], [], some trA, false, true⟩

/-- The points element observed by the `set_transformation` evaluation. -/
def elC2 : Element :=
  ⟨7, .paTable, [.x, .y], [[1, 1]], some trA, false, true⟩

/-- An unbacked container holding one persistable and one failing image. -/
def sdC1 : SpatialData :=
  ⟨[("a", elImgOk), ("b", elImgBad)], [], [], [], [], none, none⟩

/-- The run of `write` on `sdC1` that fails on the second image. -/
def c1run : SDResult :=
  SpatialData.write sdC1 fsEmpty "loc" false

/-- An unbacked container holding one points element. -/
def sdC2 : SpatialData :=
  ⟨[], [], [("p", elC2)], [], [], none, none⟩

/-- A backed empty container used for the polygons no-reload evaluation. -/
def sdC3 : SpatialData :=
  ⟨[], [], [], [], [], none, some "loc3"⟩

/-- The file system backing `sdC3`. -/
def fsC3 : FS :=
  [("loc3", ZarrStore.emptyStore)]

/-- The backed `add_polygons` run whose in-memory entry stays the original. -/
def c3run : SDResult :=
  add_polygons sdC3 fsC3 "p" elPoly false true

/-- An unbacked container holding one persistable image. -/
def sdC5 : SpatialData :=
  ⟨[("a", elImgOk)], [], [], [], [], none, none⟩

/-- Step 1 of the C5 evaluation: a successful initial `write`. -/
def c5r1 : SDResult :=
  SpatialData.write sdC5 fsEmpty "locA" false

/-- Step 2: a backed `add_points` whose persistence fails, leaving the bad
element in memory while the container stays backed. -/
def c5r2 : SDResult :=
  add_points c5r1.1 c5r1.2.1 "p" elPtsBad false true

/-- Step 3: a second `write` to a new location, failing mid-persistence. -/
def c5r3 : SDResult :=
  SpatialData.write c5r2.1 c5r2.2.1 "locB" false

/-- An empty unbacked container. -/
def sdEmpty : SpatialData :=
  ⟨[], [], [], [], [], none, none⟩

/-- An unbacked container holding one image, for the duplicate-add witness. -/
def sdW7 : SpatialData :=
  ⟨[("a", elImgOk)], [], [], [], [], none, none⟩

/-- A file system with one existing store, for the already-exists witness. -/
def fsW9 : FS :=
  [("loc9", ZarrStore.emptyStore)]

/-- A container holding one points element, for the bounding-box witness. -/
def sdW6 : SpatialData :=
  ⟨[], [], [("pts", elPtsQ)], [], [], none, none⟩

/-- The box `x ∈ [0, 5], y ∈ [0, 5]`. -/
def reqW6 : BoundingBoxRequest :=
  ⟨[(.x, 0, 5), (.y, 0, 5)]⟩

/-- A store already holding the root-level `labels` group. -/
def stW3 : ZarrStore :=
  ⟨[["labels"]], [], none, []⟩

/-- The file system backing `sdW3`. -/
def fsW3 : FS :=
  [("w3", stW3)]

/-- A backed empty container whose store has a `labels` group. -/
def sdW3 : SpatialData :=
  ⟨[], [], [], [], [], none, some "w3"⟩

/-- The entry either kept as it was or replaced by its reloaded handle. -/
def entryOR (a b : Option Element) : Prop :=
  b = a ∨ b = a.map reloadElement

/-- An image that passes one of the two image schemas (so re-validation of
its reloaded handle succeeds). -/
def imgSchemaOk (e : Element) : Bool :=
  imageValid2D e || imageValid3D e

/-- A labels element that passes one of the two labels schemas. -/
def labSchemaOk (e : Element) : Bool :=
  labelsValid2D e || labelsValid3D e

/-- Every element of the reloadable collections passes its schema. -/
def validColls (sd : SpatialData) : Bool :=
  sd.images.all (fun kv => imgSchemaOk kv.2) &&
  sd.labels.all (fun kv => labSchemaOk kv.2) &&
  sd.points.all (fun kv => pointsValid kv.2)

theorem assocGet_set_self {α β : Type} [DecidableEq α] (d : List (α × β)) (k : α) (v : β) :
    assocGet (assocSet d k v) k = some v := by
  induction d with
  | nil => simp [assocSet, assocGet]
  | cons hd t ih =>
    obtain ⟨a, b⟩ := hd
    by_cases hk : a = k
    · simp [assocSet, hk, assocGet]
    · simp [assocSet, hk, assocGet, ih]

theorem assocGet_set_ne {α β : Type} [DecidableEq α] (d : List (α × β)) (k k' : α) (v : β)
    (h : k' ≠ k) : assocGet (assocSet d k v) k' = assocGet d k' := by
  have h2 : ∀ a : α, a = k → ¬ (a = k') := by
    intro a ha hb
    exact h (hb ▸ ha)
  induction d with
  | nil => simp [assocSet, assocGet, h2 k rfl]
  | cons hd t ih =>
    obtain ⟨a, b⟩ := hd
    by_cases hk : a = k
    · subst hk
      simp [assocSet, assocGet, h2 a rfl]
    · simp [assocSet, hk, assocGet, ih]

theorem assocGet_del_ne {α β : Type} [DecidableEq α] (d : List (α × β)) (k k' : α)
    (h : k' ≠ k) : assocGet (assocDel d k) k' = assocGet d k' := by
  have h2 : ¬ (k = k') := by
    intro hb
    exact h hb.symm
  induction d with
  | nil => simp [assocDel]
  | cons hd t ih =>
    obtain ⟨a, b⟩ := hd
    by_cases hk : a = k
    · subst hk
      simp [assocDel, assocGet, h2]
    · simp [assocDel, hk, assocGet, ih]

theorem assocSet_absent {α β : Type} [DecidableEq α] (d : List (α × β)) (k : α) (v : β)
    (h : assocGet d k = none) : assocSet d k v = d ++ [(k, v)] := by
  induction d with
  | nil => simp [assocSet]
  | cons hd t ih =>
    obtain ⟨a, b⟩ := hd
    by_cases hk : a = k
    · simp [assocGet, hk] at h
    · simp [assocGet, hk] at h
      simp [assocSet, hk, ih h]

theorem assocGet_append_none {α β : Type} [DecidableEq α] (d l : List (α × β)) (k : α)
    (h : assocGet d k = none) : assocGet (d ++ l) k = assocGet l k := by
  induction d with
  | nil => simp
  | cons hd t ih =>
    obtain ⟨a, b⟩ := hd
    by_cases hk : a = k
    · simp [assocGet, hk] at h
    · simp [assocGet, hk] at h ⊢
      exact ih h

theorem assocGet_mem {α β : Type} [DecidableEq α] (d : List (α × β)) (k : α) (v : β)
    (h : assocGet d k = some v) : (k, v) ∈ d := by
  induction d with
  | nil => simp [assocGet] at h
  | cons hd t ih =>
    obtain ⟨a, b⟩ := hd
    by_cases hk : a = k
    · subst hk
      simp [assocGet] at h
      simp [h]
    · simp [assocGet, hk] at h
      exact List.mem_cons_of_mem _ (ih h)

theorem assocDel_all {α β : Type} [DecidableEq α] (d : List (α × β)) (k : α)
    (P : α × β → Bool) (h : d.all P = true) : (assocDel d k).all P = true := by
  induction d with
  | nil => simp [assocDel]
  | cons hd t ih =>
    obtain ⟨a, b⟩ := hd
    simp only [List.all_cons, Bool.and_eq_true] at h
    by_cases hk : a = k
    · simp [assocDel, hk, h.2]
    · simp only [assocDel, if_neg hk, List.all_cons, Bool.and_eq_true]
      exact ⟨h.1, ih h.2⟩

theorem assocSet_all {α β : Type} [DecidableEq α] (d : List (α × β)) (k : α) (v : β)
    (P : α × β → Bool) (h : d.all P = true) (hv : P (k, v) = true) :
    (assocSet d k v).all P = true := by
  induction d with
  | nil => simp [assocSet, hv]
  | cons hd t ih =>
    obtain ⟨a, b⟩ := hd
    simp only [List.all_cons, Bool.and_eq_true] at h
    by_cases hk : a = k
    · simp only [assocSet, if_pos hk, List.all_cons, Bool.and_eq_true]
      exact ⟨hv, h.2⟩
    · simp only [assocSet, if_neg hk, List.all_cons, Bool.and_eq_true]
      exact ⟨h.1, ih h.2⟩

/-- C4: on an unbacked container (`path = None`), the persistence-initiation
step of every `add_<kind>` operation (`_init_add_element`) fails with the
"not backed" error directing the caller to call `write()` first, for every
kind, name and overwrite flag, and mutates nothing. -/
theorem c4_unbacked_add_fails_not_backed (sd : SpatialData) (fs : FS) (name : String)
    (k : ElemKind) (ov : Bool) (h : sd.path = none) :
    _init_add_element sd fs name k ov = (fs, .error .notBacked) := by
  unfold _init_add_element
  rw [h]

theorem c4_unbacked_add_fails_not_backed_witness :
    _init_add_element sdEmpty fsEmpty "n" ElemKind.images false =
      (fsEmpty, .error .notBacked) :=
  c4_unbacked_add_fails_not_backed sdEmpty fsEmpty "n" ElemKind.images false rfl

/-- C7: for every kind, adding under an existing name without `overwrite`
raises the duplicate-name error before any mutation: the container is
returned unchanged and the collection still maps the name to the old
element. -/
theorem c7_duplicate_add_fails_untouched (k : ElemKind) (sd : SpatialData)
    (name : String) (e old : Element)
    (h : assocGet (collOf k sd) name = some old) :
    addInMemoryByKind k sd name e false =
      (sd, some (.duplicateName (kindLabel k) name)) ∧
    assocGet (collOf k (addInMemoryByKind k sd name e false).1) name = some old := by
  cases k with
  | images =>
    simp only [collOf] at h
    have h1 : addInMemoryByKind .images sd name e false
        = (sd, some (.duplicateName (kindLabel .images) name)) := by
      simp [addInMemoryByKind, _add_image_in_memory, h, kindLabel]
    exact ⟨h1, by rw [h1]; simpa [collOf] using h⟩
  | labels =>
    simp only [collOf] at h
    have h1 : addInMemoryByKind .labels sd name e false
        = (sd, some (.duplicateName (kindLabel .labels) name)) := by
      simp [addInMemoryByKind, _add_labels_in_memory, h, kindLabel]
    exact ⟨h1, by rw [h1]; simpa [collOf] using h⟩
  | points =>
    simp only [collOf] at h
    have h1 : addInMemoryByKind .points sd name e false
        = (sd, some (.duplicateName (kindLabel .points) name)) := by
      simp [addInMemoryByKind, _add_points_in_memory, h, kindLabel]
    exact ⟨h1, by rw [h1]; simpa [collOf] using h⟩
  | polygons =>
    simp only [collOf] at h
    have h1 : addInMemoryByKind .polygons sd name e false
        = (sd, some (.duplicateName (kindLabel .polygons) name)) := by
      simp [addInMemoryByKind, _add_polygons_in_memory, h, kindLabel]
    exact ⟨h1, by rw [h1]; simpa [collOf] using h⟩
  | shapes =>
    simp only [collOf] at h
    have h1 : addInMemoryByKind .shapes sd name e false
        = (sd, some (.duplicateName (kindLabel .shapes) name)) := by
      simp [addInMemoryByKind, _add_shapes_in_memory, h, kindLabel]
    exact ⟨h1, by rw [h1]; simpa [collOf] using h⟩

theorem c7_duplicate_add_fails_untouched_witness :
    addInMemoryByKind .images sdW7 "a" elImgBad false =
      (sdW7, some (.duplicateName (kindLabel .images) "a")) ∧
    assocGet (collOf .images (addInMemoryByKind .images sdW7 "a" elImgBad false).1) "a" =
      some elImgOk :=
  c7_duplicate_add_fails_untouched .images sdW7 "a" elImgBad elImgOk (by decide)

/-- C9: `write` on an unbacked container to an existing location without
`overwrite` raises the already-exists error before any mutation: the
container, the file system and in particular `path` (still `None`) are
unchanged. -/
theorem c9_write_existing_target_fails (sd : SpatialData) (fs : FS) (loc : String)
    (h1 : sd.path = none) (h2 : storeExists fs loc = true) :
    SpatialData.write sd fs loc false = (sd, fs, some .alreadyExists) ∧
    (SpatialData.write sd fs loc false).1.path = none := by
  have hne : ¬ (sd.path = some loc) := by simp [h1]
  have h3 : SpatialData.write sd fs loc false = (sd, fs, some .alreadyExists) := by
    unfold SpatialData.write
    simp [hne, h2]
  exact ⟨h3, by rw [h3]; exact h1⟩

theorem c9_write_existing_target_fails_witness :
    SpatialData.write sdEmpty fsW9 "loc9" false = (sdEmpty, fsW9, some .alreadyExists) ∧
    (SpatialData.write sdEmpty fsW9 "loc9" false).1.path = none :=
  c9_write_existing_target_fails sdEmpty fsW9 "loc9" rfl (by decide)

/-- C8: adding an image or labels element under a fresh name dispatches on
the number of declared axes: a 3-axis image is accepted exactly when the 2D
image schema passes and a 4-axis image exactly when the 3D image schema
passes; 2-axis and 3-axis labels likewise against the 2D and 3D labels
schemas; any other axis count fails with the unsupported-shape error and
leaves the container unchanged (nothing inserted). -/
theorem c8_raster_dim_dispatch (sd : SpatialData) (name : String)
    (e2d e3d ebad l2d l3d lbad : Element)
    (hni : assocGet sd.images name = none) (hnl : assocGet sd.labels name = none)
    (h2 : e2d.dims.length = 3) (h3 : e3d.dims.length = 4)
    (hb3 : ebad.dims.length ≠ 3) (hb4 : ebad.dims.length ≠ 4)
    (hl2 : l2d.dims.length = 2) (hl3 : l3d.dims.length = 3)
    (hlb2 : lbad.dims.length ≠ 2) (hlb3 : lbad.dims.length ≠ 3) :
    ((_add_image_in_memory sd name e2d false).2 = none ↔ imageValid2D e2d = true) ∧
    ((_add_image_in_memory sd name e3d false).2 = none ↔ imageValid3D e3d = true) ∧
    _add_image_in_memory sd name ebad false = (sd, some .unsupportedShape) ∧
    ((_add_labels_in_memory sd name l2d false).2 = none ↔ labelsValid2D l2d = true) ∧
    ((_add_labels_in_memory sd name l3d false).2 = none ↔ labelsValid3D l3d = true) ∧
    _add_labels_in_memory sd name lbad false = (sd, some .unsupportedShape) := by
  refine ⟨?_, ?_, ?_, ?_, ?_, ?_⟩
  · cases hv : imageValid2D e2d <;>
      simp [_add_image_in_memory, hni, addImageValidated, get_dims, h2, hv]
  · cases hv : imageValid3D e3d <;>
      simp [_add_image_in_memory, hni, addImageValidated, get_dims, h3, hv]
  · simp [_add_image_in_memory, hni, addImageValidated, get_dims, hb3, hb4]
  · cases hv : labelsValid2D l2d <;>
      simp [_add_labels_in_memory, hnl, addLabelsValidated, get_dims, hl2, hv]
  · cases hv : labelsValid3D l3d <;>
      simp [_add_labels_in_memory, hnl, addLabelsValidated, get_dims, hl3, hv]
  · simp [_add_labels_in_memory, hnl, addLabelsValidated, get_dims, hlb2, hlb3]

theorem c8_raster_dim_dispatch_witness :
    ((_add_image_in_memory sdEmpty "n" elImgOk false).2 = none ↔
      imageValid2D elImgOk = true) ∧
    ((_add_image_in_memory sdEmpty "n"
        ⟨10, .spatialImage, [.c, .z, .y, .x], [], some trA, false, true⟩ false).2 = none ↔
      imageValid3D ⟨10, .spatialImage, [.c, .z, .y, .x], [], some trA, false, true⟩ = true) ∧
    _add_image_in_memory sdEmpty "n"
        ⟨11, .spatialImage, [.x], [], some trA, false, true⟩ false =
      (sdEmpty, some .unsupportedShape) ∧
    ((_add_labels_in_memory sdEmpty "n" elLabOk false).2 = none ↔
      labelsValid2D elLabOk = true) ∧
    ((_add_labels_in_memory sdEmpty "n"
        ⟨12, .spatialImage, [.z, .y, .x], [], some trA, false, true⟩ false).2 = none ↔
      labelsValid3D ⟨12, .spatialImage, [.z, .y, .x], [], some trA, false, true⟩ = true) ∧
    _add_labels_in_memory sdEmpty "n"
        ⟨13, .spatialImage, [.x], [], some trA, false, true⟩ false =
      (sdEmpty, some .unsupportedShape) :=
  c8_raster_dim_dispatch sdEmpty "n" elImgOk
    ⟨10, .spatialImage, [.c, .z, .y, .x], [], some trA, false, true⟩
    ⟨11, .spatialImage, [.x], [], some trA, false, true⟩
    elLabOk
    ⟨12, .spatialImage, [.z, .y, .x], [], some trA, false, true⟩
    ⟨13, .spatialImage, [.x], [], some trA, false, true⟩
    rfl rfl rfl rfl (by decide) (by decide) rfl rfl (by decide) (by decide)

/-- C1, counterexample: on a container with two images where the second
fails to persist, `write` re-raises the error and rolls `path` back to
`None`, but the in-memory entry of the first image — already persisted — has
been replaced by its reloaded handle, so the in-memory state is not exactly
as it was before the call. -/
theorem c1_counterexample :
    c1run.2.2 = some .persistFailure ∧ c1run.1.path = none ∧
    assocGet c1run.1.images "a" ≠ assocGet sdC1.images "a" := by
  decide

/-- C2, evaluation at the failing input: on an unbacked container holding one
points element whose recorded transformation is `trA`, `set_transformation`
with the new transformation `trB` returns with no error yet changes nothing —
the entry still holds the element whose observable transformation
(`get_transformation`) is `trA`, not `trB`.  The in-memory update is an
empty method body. -/
theorem c2_set_transformation_is_noop :
    set_transformation sdC2 fsEmpty elC2 trB = (sdC2, fsEmpty, none) ∧
    assocGet (set_transformation sdC2 fsEmpty elC2 trB).1.points "p" = some elC2 ∧
    get_transformation elC2 = some trA ∧ trA ≠ trB := by
  refine ⟨by decide, by decide, rfl, by decide⟩

/-- C3, counterexample: a successful backed `add_polygons` leaves the caller's
original object as the in-memory entry — no reloaded handle replaces it. -/
theorem c3_counterexample_polygons_not_reloaded :
    c3run.2.2 = none ∧ assocGet c3run.1.polygons "p" = some elPoly ∧
    elPoly.lazyHandle = false ∧ reloadElement elPoly ≠ elPoly := by
  decide

/-- C5, counterexample: a container becomes backed by a successful `write`;
after a backed `add_points` whose persistence fails (the container stays
backed), a second `write` to a new location fails mid-persistence and resets
`path` to `None` — `is_backed()` becomes false again. -/
theorem c5_counterexample_backed_then_unbacked :
    c5r1.2.2 = none ∧ c5r1.1.is_backed = true ∧
    c5r2.1.is_backed = true ∧
    c5r3.2.2.isSome = true ∧ c5r3.1.is_backed = false := by
  decide

theorem addImageInMemory_path (sd : SpatialData) (n : String) (e : Element) (ov : Bool) :
    ((_add_image_in_memory sd n e ov).1).path = sd.path := by
  unfold _add_image_in_memory addImageValidated
  split_ifs <;> rfl

theorem addLabelsInMemory_path (sd : SpatialData) (n : String) (e : Element) (ov : Bool) :
    ((_add_labels_in_memory sd n e ov).1).path = sd.path := by
  unfold _add_labels_in_memory addLabelsValidated
  split_ifs <;> rfl

theorem addPointsInMemory_path (sd : SpatialData) (n : String) (e : Element) (ov : Bool) :
    ((_add_points_in_memory sd n e ov).1).path = sd.path := by
  simp only [_add_points_in_memory]
  split_ifs <;> rfl

theorem addPolygonsInMemory_path (sd : SpatialData) (n : String) (e : Element) (ov : Bool) :
    ((_add_polygons_in_memory sd n e ov).1).path = sd.path := by
  simp only [_add_polygons_in_memory]
  split_ifs <;> rfl

theorem addShapesInMemory_path (sd : SpatialData) (n : String) (e : Element) (ov : Bool) :
    ((_add_shapes_in_memory sd n e ov).1).path = sd.path := by
  simp only [_add_shapes_in_memory]
  split_ifs <;> rfl

theorem runAdds_path
    (adder : SpatialData → String → Element → Bool → SpatialData × Option SDError)
    (hp : ∀ sd n e ov, ((adder sd n e ov).1).path = sd.path) :
    ∀ (l : List (String × Element)) (sd sd' : SpatialData),
      runAdds adder l sd = .ok sd' → sd'.path = sd.path := by
  intro l
  induction l with
  | nil =>
    intro sd sd' h
    simp [runAdds] at h
    rw [← h]
  | cons kv t ih =>
    intro sd sd' h
    obtain ⟨k, v⟩ := kv
    unfold runAdds at h
    cases h1 : adder sd k v false with
    | mk sd1 err =>
      rw [h1] at h
      cases err with
      | some e => simp at h
      | none =>
        simp at h
        have h2 := ih sd1 sd' h
        have h3 := hp sd k v false
        rw [h1] at h3
        rw [h2]
        exact h3

/-- C10: every container the constructor produces — including the container
a bounding-box query builds — starts unbacked: `path` is `None` and
`is_backed()` is false, whatever the arguments. -/
theorem c10_constructor_unbacked
    (images labels points polygons shapes : List (String × Element))
    (table : Option AnnTable) (sd : SpatialData)
    (h : SpatialData.init images labels points polygons shapes table = .ok sd) :
    sd.path = none ∧ sd.is_backed = false := by
  suffices hp : sd.path = none by
    refine ⟨hp, ?_⟩
    simp [SpatialData.is_backed, hp]
  unfold SpatialData.init at h
  cases h1 : runAdds _add_image_in_memory images ⟨[], [], [], [], [], none, none⟩ with
  | error e => rw [h1] at h; simp at h
  | ok sd1 =>
    rw [h1] at h
    dsimp only at h
    have p1 : sd1.path = none :=
      runAdds_path _add_image_in_memory
        (fun sd n e ov => addImageInMemory_path sd n e ov) images _ sd1 h1
    cases h2 : runAdds _add_labels_in_memory labels sd1 with
    | error e => rw [h2] at h; simp at h
    | ok sd2 =>
      rw [h2] at h
      dsimp only at h
      have p2 : sd2.path = none := by
        rw [runAdds_path _add_labels_in_memory
          (fun sd n e ov => addLabelsInMemory_path sd n e ov) labels sd1 sd2 h2]
        exact p1
      cases h3 : runAdds _add_polygons_in_memory polygons sd2 with
      | error e => rw [h3] at h; simp at h
      | ok sd3 =>
        rw [h3] at h
        dsimp only at h
        have p3 : sd3.path = none := by
          rw [runAdds_path _add_polygons_in_memory
            (fun sd n e ov => addPolygonsInMemory_path sd n e ov) polygons sd2 sd3 h3]
          exact p2
        cases h4 : runAdds _add_shapes_in_memory shapes sd3 with
        | error e => rw [h4] at h; simp at h
        | ok sd4 =>
          rw [h4] at h
          dsimp only at h
          have p4 : sd4.path = none := by
            rw [runAdds_path _add_shapes_in_memory
              (fun sd n e ov => addShapesInMemory_path sd n e ov) shapes sd3 sd4 h4]
            exact p3
          cases h5 : runAdds _add_points_in_memory points sd4 with
          | error e => rw [h5] at h; simp at h
          | ok sd5 =>
            rw [h5] at h
            dsimp only at h
            have p5 : sd5.path = none := by
              rw [runAdds_path _add_points_in_memory
                (fun sd n e ov => addPointsInMemory_path sd n e ov) points sd4 sd5 h5]
              exact p4
            cases table with
            | none =>
              simp at h
              rw [← h]
              exact p5
            | some t =>
              by_cases ht : tableValid t = true
              · simp [ht] at h
                rw [← h]
                exact p5
              · simp [ht] at h

theorem c10_constructor_unbacked_witness :
    sdEmpty.path = none ∧ sdEmpty.is_backed = false :=
  c10_constructor_unbacked [] [] [] [] [] none sdEmpty rfl

theorem runAdds_points_app :
    ∀ (l : List (String × Element)) (sd : SpatialData),
      (∀ kv ∈ l, pointsValid kv.2 = true) →
      (l.map Prod.fst).Nodup →
      (∀ kv ∈ l, assocGet sd.points kv.1 = none) →
      runAdds _add_points_in_memory l sd = .ok { sd with points := sd.points ++ l } := by
  intro l
  induction l with
  | nil =>
    intro sd _ _ _
    simp [runAdds]
  | cons kv t ih =>
    intro sd hval hnd habs
    obtain ⟨k, v⟩ := kv
    have hk : assocGet sd.points k = none := habs (k, v) (by simp)
    have hv : pointsValid v = true := hval (k, v) (by simp)
    have hstep : _add_points_in_memory sd k v false
        = ({ sd with points := assocSet sd.points k v }, none) := by
      simp [_add_points_in_memory, hk, hv]
    have hnotin : k ∉ t.map Prod.fst := by
      simp only [List.map_cons, List.nodup_cons] at hnd
      exact hnd.1
    have habs' : ∀ kv ∈ t, assocGet (sd.points ++ [(k, v)]) kv.1 = none := by
      intro kv2 hm
      have hne : ¬ (k = kv2.1) := by
        intro he
        exact hnotin (he ▸ List.mem_map_of_mem Prod.fst hm)
      rw [assocGet_append_none sd.points [(k, v)] kv2.1 (habs kv2 (List.mem_cons_of_mem _ hm))]
      simp [assocGet, hne]
    have hval' : ∀ kv ∈ t, pointsValid kv.2 = true := by
      intro kv2 hm
      exact hval kv2 (List.mem_cons_of_mem _ hm)
    have hnd' : (t.map Prod.fst).Nodup := by
      simp only [List.map_cons, List.nodup_cons] at hnd
      exact hnd.2
    unfold runAdds
    rw [hstep]
    dsimp only
    rw [assocSet_absent sd.points k v hk]
    rw [ih { sd with points := sd.points ++ [(k, v)] } hval' hnd' habs']
    simp

theorem bbq_points_valid (pts : List (String × Element)) (req : BoundingBoxRequest)
    (h : ∀ kv ∈ pts, pointsValid kv.2 = true) :
    ∀ kv ∈ _bounding_box_query_points_dict pts req, pointsValid kv.2 = true := by
  intro kv hm
  unfold _bounding_box_query_points_dict at hm
  have hm2 := List.mem_of_mem_filter hm
  obtain ⟨orig, hmem, heq⟩ := List.mem_map.mp hm2
  subst heq
  exact h orig hmem

theorem bbq_points_nodup (pts : List (String × Element)) (req : BoundingBoxRequest)
    (h : (pts.map Prod.fst).Nodup) :
    ((_bounding_box_query_points_dict pts req).map Prod.fst).Nodup := by
  unfold _bounding_box_query_points_dict
  have h1 : List.Sublist
      ((pts.map (fun kv => (kv.1, filterPoints kv.2 req))).filter
        (fun kv => kv.2.rows.length ≠ 0))
      (pts.map (fun kv => (kv.1, filterPoints kv.2 req))) :=
    List.filter_sublist _
  have h2 := h1.map Prod.fst
  have h3 : (pts.map (fun kv => (kv.1, filterPoints kv.2 req))).map Prod.fst
      = pts.map Prod.fst := by
    rw [List.map_map]
    rfl
  rw [h3] at h2
  exact h.sublist h2

/-- C6: for every source container with valid, uniquely named point elements,
`query.bounding_box(request)` returns a brand-new fully in-memory container —
unbacked (`path = None`), no table, and only the filtered point elements,
every other collection empty — and the query leaves the source container,
its collections, table, path and the whole file system unchanged. -/
theorem c6_bounding_box_fresh_unbacked (sd : SpatialData) (fs : FS)
    (req : BoundingBoxRequest)
    (hval : ∀ kv ∈ sd.points, pointsValid kv.2 = true)
    (hnd : (sd.points.map Prod.fst).Nodup) :
    QueryManager.bounding_box sd req =
      .ok ⟨[], [], _bounding_box_query_points_dict sd.points req, [], [], none, none⟩ ∧
    stepOp (.boundingBoxQuery req) sd fs = (sd, fs, none) := by
  have habs : ∀ kv ∈ _bounding_box_query_points_dict sd.points req,
      assocGet (([] : List (String × Element))) kv.1 = none := by
    intro kv _
    rfl
  have hpts := runAdds_points_app (_bounding_box_query_points_dict sd.points req)
    ⟨[], [], [], [], [], none, none⟩
    (bbq_points_valid sd.points req hval)
    (bbq_points_nodup sd.points req hnd) habs
  have hmain : QueryManager.bounding_box sd req =
      .ok ⟨[], [], _bounding_box_query_points_dict sd.points req, [], [], none, none⟩ := by
    unfold QueryManager.bounding_box SpatialData.init
    rw [show runAdds _add_image_in_memory []
      (⟨[], [], [], [], [], none, none⟩ : SpatialData)
      = .ok ⟨[], [], [], [], [], none, none⟩ from rfl]
    dsimp only
    rw [show runAdds _add_labels_in_memory []
      (⟨[], [], [], [], [], none, none⟩ : SpatialData)
      = .ok ⟨[], [], [], [], [], none, none⟩ from rfl]
    dsimp only
    rw [show runAdds _add_polygons_in_memory []
      (⟨[], [], [], [], [], none, none⟩ : SpatialData)
      = .ok ⟨[], [], [], [], [], none, none⟩ from rfl]
    dsimp only
    rw [show runAdds _add_shapes_in_memory []
      (⟨[], [], [], [], [], none, none⟩ : SpatialData)
      = .ok ⟨[], [], [], [], [], none, none⟩ from rfl]
    dsimp only
    rw [hpts]
    simp
  refine ⟨hmain, ?_⟩
  simp [stepOp, hmain]

theorem c6_bounding_box_fresh_unbacked_witness :
    QueryManager.bounding_box sdW6 reqW6 =
      .ok ⟨[], [], _bounding_box_query_points_dict sdW6.points reqW6, [], [], none, none⟩ ∧
    stepOp (.boundingBoxQuery reqW6) sdW6 fsEmpty = (sdW6, fsEmpty, none) :=
  c6_bounding_box_fresh_unbacked sdW6 fsEmpty reqW6 (by decide) (by decide)

theorem add_image_path (sd : SpatialData) (fs : FS) (n : String) (e : Element)
    (ov mem : Bool) : ((add_image sd fs n e ov mem).1).path = sd.path := by
  have hmem : ((if mem then _add_image_in_memory sd n e ov else (sd, none)).1).path
      = sd.path := by
    cases mem
    · rfl
    · exact addImageInMemory_path sd n e ov
  unfold add_image
  split
  next sd1 err heq =>
    rw [heq] at hmem
    exact hmem
  next sd1 heq =>
    have h1 : sd1.path = sd.path := by
      rw [heq] at hmem
      exact hmem
    split
    · exact h1
    next p hp =>
      split
      next fs1 err heq2 => exact h1
      next fs1 gp heq2 =>
        split
        · exact h1
        next el hel =>
          split
          · split
            next sd2 e2 heq3 =>
              have h2 := addImageInMemory_path sd1 n (reloadElement el) true
              rw [heq3] at h2
              exact h2.trans h1
          · exact h1

theorem add_labels_path (sd : SpatialData) (fs : FS) (n : String) (e : Element)
    (ov mem : Bool) : ((add_labels sd fs n e ov mem).1).path = sd.path := by
  have hmem : ((if mem then _add_labels_in_memory sd n e ov else (sd, none)).1).path
      = sd.path := by
    cases mem
    · rfl
    · exact addLabelsInMemory_path sd n e ov
  unfold add_labels
  split
  next sd1 err heq =>
    rw [heq] at hmem
    exact hmem
  next sd1 heq =>
    have h1 : sd1.path = sd.path := by
      rw [heq] at hmem
      exact hmem
    split
    · exact h1
    next p hp =>
      split
      next fs1 err heq2 => exact h1
      next fs1 gp heq2 =>
        split
        · exact h1
        next el hel =>
          split
          · split
            next sd2 e2 heq3 =>
              have h2 := addLabelsInMemory_path sd1 n (reloadElement el) true
              rw [heq3] at h2
              exact h2.trans h1
          · exact h1

theorem add_points_path (sd : SpatialData) (fs : FS) (n : String) (e : Element)
    (ov mem : Bool) : ((add_points sd fs n e ov mem).1).path = sd.path := by
  have hmem : ((if mem then _add_points_in_memory sd n e ov else (sd, none)).1).path
      = sd.path := by
    cases mem
    · rfl
    · exact addPointsInMemory_path sd n e ov
  unfold add_points
  split
  next sd1 err heq =>
    rw [heq] at hmem
    exact hmem
  next sd1 heq =>
    have h1 : sd1.path = sd.path := by
      rw [heq] at hmem
      exact hmem
    split
    · exact h1
    next p hp =>
      split
      next fs1 err heq2 => exact h1
      next fs1 gp heq2 =>
        split
        · exact h1
        next el hel =>
          split
          · split
            next sd2 e2 heq3 =>
              have h2 := addPointsInMemory_path sd1 n (reloadElement el) true
              rw [heq3] at h2
              exact h2.trans h1
          · exact h1

theorem add_polygons_path (sd : SpatialData) (fs : FS) (n : String) (e : Element)
    (ov mem : Bool) : ((add_polygons sd fs n e ov mem).1).path = sd.path := by
  have hmem : ((if mem then _add_polygons_in_memory sd n e ov else (sd, none)).1).path
      = sd.path := by
    cases mem
    · rfl
    · exact addPolygonsInMemory_path sd n e ov
  unfold add_polygons
  split
  next sd1 err heq =>
    rw [heq] at hmem
    exact hmem
  next sd1 heq =>
    have h1 : sd1.path = sd.path := by
      rw [heq] at hmem
      exact hmem
    split
    · exact h1
    next p hp =>
      split
      next fs1 err heq2 => exact h1
      next fs1 gp heq2 =>
        split
        · exact h1
        next el hel =>
          split
          · exact h1
          · exact h1

theorem add_shapes_path (sd : SpatialData) (fs : FS) (n : String) (e : Element)
    (ov mem : Bool) : ((add_shapes sd fs n e ov mem).1).path = sd.path := by
  have hmem : ((if mem then _add_shapes_in_memory sd n e ov else (sd, none)).1).path
      = sd.path := by
    cases mem
    · rfl
    · exact addShapesInMemory_path sd n e ov
  unfold add_shapes
  split
  next sd1 err heq =>
    rw [heq] at hmem
    exact hmem
  next sd1 heq =>
    have h1 : sd1.path = sd.path := by
      rw [heq] at hmem
      exact hmem
    split
    · exact h1
    next p hp =>
      split
      next fs1 err heq2 => exact h1
      next fs1 gp heq2 =>
        split
        · exact h1
        next el hel =>
          split
          · exact h1
          · exact h1

theorem writeImagesLoop_path : ∀ (ks : List String) (sd : SpatialData) (fs : FS),
    ((writeImagesLoop ks sd fs).1).path = sd.path := by
  intro ks
  induction ks with
  | nil => intro sd fs; rfl
  | cons k t ih =>
    intro sd fs
    unfold writeImagesLoop
    split
    · rfl
    next img himg =>
      split
      next sd' fs' e heq =>
        have h1 := add_image_path sd fs k img false false
        rw [heq] at h1
        exact h1
      next sd' fs' heq =>
        have h1 := add_image_path sd fs k img false false
        rw [heq] at h1
        exact (ih sd' fs').trans h1

theorem writeLabelsLoop_path : ∀ (ks : List String) (sd : SpatialData) (fs : FS),
    ((writeLabelsLoop ks sd fs).1).path = sd.path := by
  intro ks
  induction ks with
  | nil => intro sd fs; rfl
  | cons k t ih =>
    intro sd fs
    unfold writeLabelsLoop
    split
    · rfl
    next el hel =>
      split
      next sd' fs' e heq =>
        have h1 := add_labels_path sd fs k el false false
        rw [heq] at h1
        exact h1
      next sd' fs' heq =>
        have h1 := add_labels_path sd fs k el false false
        rw [heq] at h1
        exact (ih sd' fs').trans h1

theorem writePointsLoop_path : ∀ (ks : List String) (sd : SpatialData) (fs : FS),
    ((writePointsLoop ks sd fs).1).path = sd.path := by
  intro ks
  induction ks with
  | nil => intro sd fs; rfl
  | cons k t ih =>
    intro sd fs
    unfold writePointsLoop
    split
    · rfl
    next el hel =>
      split
      next sd' fs' e heq =>
        have h1 := add_points_path sd fs k el false false
        rw [heq] at h1
        exact h1
      next sd' fs' heq =>
        have h1 := add_points_path sd fs k el false false
        rw [heq] at h1
        exact (ih sd' fs').trans h1

theorem writePolygonsLoop_path : ∀ (ks : List String) (sd : SpatialData) (fs : FS),
    ((writePolygonsLoop ks sd fs).1).path = sd.path := by
  intro ks
  induction ks with
  | nil => intro sd fs; rfl
  | cons k t ih =>
    intro sd fs
    unfold writePolygonsLoop
    split
    · rfl
    next el hel =>
      split
      next sd' fs' e heq =>
        have h1 := add_polygons_path sd fs k el false false
        rw [heq] at h1
        exact h1
      next sd' fs' heq =>
        have h1 := add_polygons_path sd fs k el false false
        rw [heq] at h1
        exact (ih sd' fs').trans h1

theorem writeShapesLoop_path : ∀ (ks : List String) (sd : SpatialData) (fs : FS),
    ((writeShapesLoop ks sd fs).1).path = sd.path := by
  intro ks
  induction ks with
  | nil => intro sd fs; rfl
  | cons k t ih =>
    intro sd fs
    unfold writeShapesLoop
    split
    · rfl
    next el hel =>
      split
      next sd' fs' e heq =>
        have h1 := add_shapes_path sd fs k el false false
        rw [heq] at h1
        exact h1
      next sd' fs' heq =>
        have h1 := add_shapes_path sd fs k el false false
        rw [heq] at h1
        exact (ih sd' fs').trans h1

theorem imagesPhase_path (p : String) (sd : SpatialData) (fs : FS) :
    ((imagesPhase p sd fs).1).path = sd.path := by
  unfold imagesPhase
  split_ifs
  · exact writeImagesLoop_path _ sd _
  · rfl

theorem labelsPhase_path (p : String) (sd : SpatialData) (fs : FS) :
    ((labelsPhase p sd fs).1).path = sd.path := by
  unfold labelsPhase
  split_ifs
  · exact writeLabelsLoop_path _ sd _
  · rfl

theorem pointsPhase_path (p : String) (sd : SpatialData) (fs : FS) :
    ((pointsPhase p sd fs).1).path = sd.path := by
  unfold pointsPhase
  split_ifs
  · exact writePointsLoop_path _ sd _
  · rfl

theorem polygonsPhase_path (p : String) (sd : SpatialData) (fs : FS) :
    ((polygonsPhase p sd fs).1).path = sd.path := by
  unfold polygonsPhase
  split_ifs
  · exact writePolygonsLoop_path _ sd _
  · rfl

theorem shapesPhase_path (p : String) (sd : SpatialData) (fs : FS) :
    ((shapesPhase p sd fs).1).path = sd.path := by
  unfold shapesPhase
  split_ifs
  · exact writeShapesLoop_path _ sd _
  · rfl

theorem tablePhase_path (p : String) (sd : SpatialData) (fs : FS) :
    ((tablePhase p sd fs).1).path = sd.path := by
  unfold tablePhase
  split
  · rfl
  · split_ifs <;> rfl

theorem writeTry_path (p : String) (sd : SpatialData) (fs : FS) :
    ((writeTry p sd fs).1).path = sd.path := by
  unfold writeTry
  split
  next sd1 fs1 e heq =>
    have h := imagesPhase_path p sd fs
    rw [heq] at h
    exact h
  next sd1 fs1 heq =>
    have g1 : sd1.path = sd.path := by
      have h := imagesPhase_path p sd fs
      rw [heq] at h
      exact h
    split
    next sd2 fs2 e heq2 =>
      have h := labelsPhase_path p sd1 fs1
      rw [heq2] at h
      exact h.trans g1
    next sd2 fs2 heq2 =>
      have g2 : sd2.path = sd.path := by
        have h := labelsPhase_path p sd1 fs1
        rw [heq2] at h
        exact h.trans g1
      split
      next sd3 fs3 e heq3 =>
        have h := pointsPhase_path p sd2 fs2
        rw [heq3] at h
        exact h.trans g2
      next sd3 fs3 heq3 =>
        have g3 : sd3.path = sd.path := by
          have h := pointsPhase_path p sd2 fs2
          rw [heq3] at h
          exact h.trans g2
        split
        next sd4 fs4 e heq4 =>
          have h := polygonsPhase_path p sd3 fs3
          rw [heq4] at h
          exact h.trans g3
        next sd4 fs4 heq4 =>
          have g4 : sd4.path = sd.path := by
            have h := polygonsPhase_path p sd3 fs3
            rw [heq4] at h
            exact h.trans g3
          split
          next sd5 fs5 e heq5 =>
            have h := shapesPhase_path p sd4 fs4
            rw [heq5] at h
            exact h.trans g4
          next sd5 fs5 heq5 =>
            have g5 : sd5.path = sd.path := by
              have h := shapesPhase_path p sd4 fs4
              rw [heq5] at h
              exact h.trans g4
            exact (tablePhase_path p sd5 fs5).trans g5

theorem set_transformation_fst (sd : SpatialData) (fs : FS) (e : Element)
    (t : BaseTransformation) : (set_transformation sd fs e t).1 = sd := by
  unfold set_transformation
  dsimp only
  split
  · rfl
  · split
    · rfl
    · split
      · rfl
      · split <;> rfl
  · rfl

/-- C5, amended: once a container is backed, every operation other than a
failing `write` keeps it backed — the five `add` operations (even failing
ones), `set_transformation`, bounding-box queries, and successful `write`s
all preserve `is_backed()`; only a `write` that raises can reset `path` to
`None`. -/
theorem c5_backedness_preserved_amended (op : Op) (sd : SpatialData) (fs : FS)
    (p : String) (hp : sd.path = some p)
    (h : op.isWriteOp = false ∨ (stepOp op sd fs).2.2 = none) :
    ((stepOp op sd fs).1.path).isSome = true := by
  cases op with
  | addImage n e ov =>
    show ((add_image sd fs n e ov true).1.path).isSome = true
    rw [add_image_path sd fs n e ov true, hp]
    rfl
  | addLabels n e ov =>
    show ((add_labels sd fs n e ov true).1.path).isSome = true
    rw [add_labels_path sd fs n e ov true, hp]
    rfl
  | addPoints n e ov =>
    show ((add_points sd fs n e ov true).1.path).isSome = true
    rw [add_points_path sd fs n e ov true, hp]
    rfl
  | addPolygons n e ov =>
    show ((add_polygons sd fs n e ov true).1.path).isSome = true
    rw [add_polygons_path sd fs n e ov true, hp]
    rfl
  | addShapes n e ov =>
    show ((add_shapes sd fs n e ov true).1.path).isSome = true
    rw [add_shapes_path sd fs n e ov true, hp]
    rfl
  | setTransform e t =>
    show ((set_transformation sd fs e t).1.path).isSome = true
    rw [set_transformation_fst sd fs e t, hp]
    rfl
  | boundingBoxQuery req =>
    have h1 : (stepOp (.boundingBoxQuery req) sd fs).1 = sd := by
      show (match QueryManager.bounding_box sd req with
        | .ok _ => (sd, fs, (none : Option SDError))
        | .error e => (sd, fs, some e)).1 = sd
      split <;> rfl
    rw [h1, hp]
    rfl
  | writeOp loc ov =>
    have hw : (SpatialData.write sd fs loc ov).2.2 = none := by
      rcases h with h | h
      · simp [Op.isWriteOp] at h
      · exact h
    show ((SpatialData.write sd fs loc ov).1.path).isSome = true
    by_cases h1 : sd.path = some loc
    · exfalso
      unfold SpatialData.write at hw
      rw [if_pos h1] at hw
      simp at hw
    · by_cases h2 : (!ov && storeExists fs loc) = true
      · exfalso
        unfold SpatialData.write at hw
        rw [if_neg h1, if_pos h2] at hw
        simp at hw
      · rcases hww : writeTry loc { sd with path := some loc }
          (fsSet fs loc ZarrStore.emptyStore) with ⟨sd2, fs2, err⟩
        have hred : SpatialData.write sd fs loc ov =
            (match writeTry loc { sd with path := some loc }
              (fsSet fs loc ZarrStore.emptyStore) with
            | (sd2, fs2, some e) => ({ sd2 with path := none }, fs2, some e)
            | (sd2, fs2, none) => (sd2, fs2, none)) := by
          unfold SpatialData.write
          rw [if_neg h1, if_neg h2]
        rw [hred, hww] at hw ⊢
        cases err with
        | some e => simp at hw
        | none =>
          dsimp only
          have h3 := writeTry_path loc { sd with path := some loc }
            (fsSet fs loc ZarrStore.emptyStore)
          rw [hww] at h3
          dsimp only at h3
          rw [h3]
          rfl

theorem c5_backedness_preserved_amended_witness :
    ((stepOp (.setTransform elC2 trA) sdC3 fsC3).1.path).isSome = true :=
  c5_backedness_preserved_amended (.setTransform elC2 trA) sdC3 fsC3 "loc3" rfl
    (Or.inl rfl)

theorem imgSchemaOk_reload (e : Element) :
    imgSchemaOk (reloadElement e) = imgSchemaOk e := rfl

theorem labSchemaOk_reload (e : Element) :
    labSchemaOk (reloadElement e) = labSchemaOk e := rfl

theorem pointsValid_reload (e : Element) :
    pointsValid (reloadElement e) = pointsValid e := rfl

theorem addImageInMemory_ov_valid (sd : SpatialData) (n : String) (e : Element)
    (h : imgSchemaOk e = true) :
    _add_image_in_memory sd n e true =
      ({ sd with images := assocSet
                  (if (assocGet sd.images n).isSome then assocDel sd.images n
                    else sd.images) n e }, none) := by
  unfold _add_image_in_memory addImageValidated
  simp only [imgSchemaOk, Bool.or_eq_true] at h
  rcases h with h | h
  · have h3 : e.dims = [Axis.c, Axis.y, Axis.x] := by
      simpa [imageValid2D] using h
    by_cases hp : (assocGet sd.images n).isSome
    · simp [hp, get_dims, h3, imageValid2D]
    · simp [hp, get_dims, h3, imageValid2D]
  · have h3 : e.dims = [Axis.c, Axis.z, Axis.y, Axis.x] := by
      simpa [imageValid3D] using h
    by_cases hp : (assocGet sd.images n).isSome
    · simp [hp, get_dims, h3, imageValid3D]
    · simp [hp, get_dims, h3, imageValid3D]

theorem addLabelsInMemory_ov_valid (sd : SpatialData) (n : String) (e : Element)
    (h : labSchemaOk e = true) :
    _add_labels_in_memory sd n e true =
      ({ sd with labels := assocSet
                  (if (assocGet sd.labels n).isSome then assocDel sd.labels n
                    else sd.labels) n e }, none) := by
  unfold _add_labels_in_memory addLabelsValidated
  simp only [labSchemaOk, Bool.or_eq_true] at h
  rcases h with h | h
  · have h3 : e.dims = [Axis.y, Axis.x] := by
      simpa [labelsValid2D] using h
    by_cases hp : (assocGet sd.labels n).isSome
    · simp [hp, get_dims, h3, labelsValid2D]
    · simp [hp, get_dims, h3, labelsValid2D]
  · have h3 : e.dims = [Axis.z, Axis.y, Axis.x] := by
      simpa [labelsValid3D] using h
    by_cases hp : (assocGet sd.labels n).isSome
    · simp [hp, get_dims, h3, labelsValid3D]
    · simp [hp, get_dims, h3, labelsValid3D]

theorem addPointsInMemory_ov_valid (sd : SpatialData) (n : String) (e : Element)
    (h : pointsValid e = true) :
    _add_points_in_memory sd n e true =
      ({ sd with points := assocSet
                  (if (assocGet sd.points n).isSome then assocDel sd.points n
                    else sd.points) n e }, none) := by
  unfold _add_points_in_memory
  by_cases hp : (assocGet sd.points n).isSome
  · simp [hp, h]
  · simp [hp, h]

theorem addPolygonsInMemory_ov_valid (sd : SpatialData) (n : String) (e : Element)
    (h : polygonsValid e = true) :
    _add_polygons_in_memory sd n e true =
      ({ sd with polygons := assocSet
                  (if (assocGet sd.polygons n).isSome then assocDel sd.polygons n
                    else sd.polygons) n e }, none) := by
  unfold _add_polygons_in_memory
  by_cases hp : (assocGet sd.polygons n).isSome
  · simp [hp, h]
  · simp [hp, h]

theorem addShapesInMemory_ov_valid (sd : SpatialData) (n : String) (e : Element)
    (h : shapesValid e = true) :
    _add_shapes_in_memory sd n e true =
      ({ sd with shapes := assocSet
                  (if (assocGet sd.shapes n).isSome then assocDel sd.shapes n
                    else sd.shapes) n e }, none) := by
  unfold _add_shapes_in_memory
  by_cases hp : (assocGet sd.shapes n).isSome
  · simp [hp, h]
  · simp [hp, h]

theorem initAddElement_ov_shape (sd : SpatialData) (fs : FS) (name : String)
    (k : ElemKind) (p : String) (st : ZarrStore) (hk : ¬ (k = .labels))
    (hb : sd.path = some p) (hst : assocGet fs p = some st) :
    ∃ st2 : ZarrStore, _init_add_element sd fs name k true =
      (fsSet fs p st2, .ok [kindName k]) := by
  refine ⟨if (st.createGroup [kindName k]).hasKey [kindName k, name] then
    (st.createGroup [kindName k]).deleteSub [kindName k, name]
    else st.createGroup [kindName k], ?_⟩
  unfold _init_add_element
  rw [hb]
  dsimp only
  rw [hst]
  dsimp only
  rw [if_neg hk, if_pos rfl, if_neg hk]

theorem initAddElement_ov_labels_shape (sd : SpatialData) (fs : FS) (name : String)
    (p : String) (st : ZarrStore) (hb : sd.path = some p)
    (hst : assocGet fs p = some st) (hlg : [kindName .labels] ∈ st.groups) :
    ∃ st2 : ZarrStore, _init_add_element sd fs name .labels true =
      (fsSet fs p st2, .ok []) := by
  refine ⟨if st.hasKey [kindName .labels, name] then
    st.deleteSub [kindName .labels, name] else st, ?_⟩
  unfold _init_add_element
  rw [hb]
  dsimp only
  rw [hst]
  dsimp only
  rw [if_pos rfl, if_pos rfl, if_pos rfl, if_pos hlg]

theorem add_image_backed_ov_spec (sd : SpatialData) (fs : FS) (p : String)
    (st : ZarrStore) (name : String) (e : Element) (hb : sd.path = some p)
    (hst : assocGet fs p = some st) (hv : imgSchemaOk e = true)
    (hpk : e.persistOk = true) :
    (add_image sd fs name e true true).2.2 = none ∧
    assocGet (add_image sd fs name e true true).1.images name =
      some (reloadElement e) ∧
    fsDataAt (add_image sd fs name e true true).2.1 p ["images", name] = some e := by
  have h1 := addImageInMemory_ov_valid sd name e hv
  obtain ⟨st2, hinit⟩ := initAddElement_ov_shape
    { sd with
      images := assocSet
        (if (assocGet sd.images name).isSome then assocDel sd.images name
          else sd.images) name e,
      path := some p }
    fs name .images p st (by simp) rfl hst
  have h2 := addImageInMemory_ov_valid
    { sd with
      images := assocSet
        (if (assocGet sd.images name).isSome then assocDel sd.images name
          else sd.images) name e,
      path := some p }
    name (reloadElement e) (by rw [imgSchemaOk_reload]; exact hv)
  simp only [add_image, h1, hb, hinit, assocGet_set_self, hpk, if_true, fsUpdate,
    fsSet, List.cons_append, List.nil_append, h2]
  refine ⟨trivial, ?_, ?_⟩
  · simp [assocGet_set_self]
  · simp only [fsDataAt, assocGet_set_self, ZarrStore.writeData, ZarrStore.createGroup]
    split_ifs <;> exact assocGet_set_self _ _ _

theorem add_labels_backed_ov_spec (sd : SpatialData) (fs : FS) (p : String)
    (st : ZarrStore) (name : String) (e : Element) (hb : sd.path = some p)
    (hst : assocGet fs p = some st) (hlg : [kindName .labels] ∈ st.groups)
    (hv : labSchemaOk e = true) (hpk : e.persistOk = true) :
    (add_labels sd fs name e true true).2.2 = none ∧
    assocGet (add_labels sd fs name e true true).1.labels name =
      some (reloadElement e) ∧
    fsDataAt (add_labels sd fs name e true true).2.1 p ["labels", name] = some e := by
  have h1 := addLabelsInMemory_ov_valid sd name e hv
  obtain ⟨st2, hinit⟩ := initAddElement_ov_labels_shape
    { sd with
      labels := assocSet
        (if (assocGet sd.labels name).isSome then assocDel sd.labels name
          else sd.labels) name e,
      path := some p }
    fs name p st rfl hst hlg
  have h2 := addLabelsInMemory_ov_valid
    { sd with
      labels := assocSet
        (if (assocGet sd.labels name).isSome then assocDel sd.labels name
          else sd.labels) name e,
      path := some p }
    name (reloadElement e) (by rw [labSchemaOk_reload]; exact hv)
  simp only [add_labels, h1, hb, hinit, assocGet_set_self, hpk, if_true, fsUpdate,
    fsSet, List.cons_append, List.nil_append, h2]
  refine ⟨trivial, ?_, ?_⟩
  · simp [assocGet_set_self]
  · simp only [fsDataAt, assocGet_set_self, ZarrStore.writeData, ZarrStore.createGroup]

theorem add_points_backed_ov_spec (sd : SpatialData) (fs : FS) (p : String)
    (st : ZarrStore) (name : String) (e : Element) (hb : sd.path = some p)
    (hst : assocGet fs p = some st) (hv : pointsValid e = true)
    (hpk : e.persistOk = true) :
    (add_points sd fs name e true true).2.2 = none ∧
    assocGet (add_points sd fs name e true true).1.points name =
      some (reloadElement e) ∧
    fsDataAt (add_points sd fs name e true true).2.1 p ["points", name] = some e := by
  have h1 := addPointsInMemory_ov_valid sd name e hv
  obtain ⟨st2, hinit⟩ := initAddElement_ov_shape
    { sd with
      points := assocSet
        (if (assocGet sd.points name).isSome then assocDel sd.points name
          else sd.points) name e,
      path := some p }
    fs name .points p st (by simp) rfl hst
  have h2 := addPointsInMemory_ov_valid
    { sd with
      points := assocSet
        (if (assocGet sd.points name).isSome then assocDel sd.points name
          else sd.points) name e,
      path := some p }
    name (reloadElement e) (by rw [pointsValid_reload]; exact hv)
  simp only [add_points, h1, hb, hinit, assocGet_set_self, hpk, if_true, fsUpdate,
    fsSet, List.cons_append, List.nil_append, h2]
  refine ⟨trivial, ?_, ?_⟩
  · simp [assocGet_set_self]
  · simp only [fsDataAt, assocGet_set_self, ZarrStore.writeData, ZarrStore.createGroup]
    split_ifs <;> exact assocGet_set_self _ _ _

theorem add_polygons_backed_ov_spec (sd : SpatialData) (fs : FS) (p : String)
    (st : ZarrStore) (name : String) (e : Element) (hb : sd.path = some p)
    (hst : assocGet fs p = some st) (hv : polygonsValid e = true)
    (hpk : e.persistOk = true) :
    (add_polygons sd fs name e true true).2.2 = none ∧
    assocGet (add_polygons sd fs name e true true).1.polygons name = some e ∧
    fsDataAt (add_polygons sd fs name e true true).2.1 p ["polygons", name] =
      some e := by
  have h1 := addPolygonsInMemory_ov_valid sd name e hv
  obtain ⟨st2, hinit⟩ := initAddElement_ov_shape
    { sd with
      polygons := assocSet
        (if (assocGet sd.polygons name).isSome then assocDel sd.polygons name
          else sd.polygons) name e,
      path := some p }
    fs name .polygons p st (by simp) rfl hst
  simp only [add_polygons, h1, hb, hinit, assocGet_set_self, hpk, if_true, fsUpdate,
    fsSet, List.cons_append, List.nil_append]
  refine ⟨trivial, ?_, ?_⟩
  · simp [assocGet_set_self]
  · simp only [fsDataAt, assocGet_set_self, ZarrStore.writeData, ZarrStore.createGroup]
    split_ifs <;> exact assocGet_set_self _ _ _

theorem add_shapes_backed_ov_spec (sd : SpatialData) (fs : FS) (p : String)
    (st : ZarrStore) (name : String) (e : Element) (hb : sd.path = some p)
    (hst : assocGet fs p = some st) (hv : shapesValid e = true)
    (hpk : e.persistOk = true) :
    (add_shapes sd fs name e true true).2.2 = none ∧
    assocGet (add_shapes sd fs name e true true).1.shapes name = some e ∧
    fsDataAt (add_shapes sd fs name e true true).2.1 p ["shapes", name] =
      some e := by
  have h1 := addShapesInMemory_ov_valid sd name e hv
  obtain ⟨st2, hinit⟩ := initAddElement_ov_shape
    { sd with
      shapes := assocSet
        (if (assocGet sd.shapes name).isSome then assocDel sd.shapes name
          else sd.shapes) name e,
      path := some p }
    fs name .shapes p st (by simp) rfl hst
  simp only [add_shapes, h1, hb, hinit, assocGet_set_self, hpk, if_true, fsUpdate,
    fsSet, List.cons_append, List.nil_append]
  refine ⟨trivial, ?_, ?_⟩
  · simp [assocGet_set_self]
  · simp only [fsDataAt, assocGet_set_self, ZarrStore.writeData, ZarrStore.createGroup]
    split_ifs <;> exact assocGet_set_self _ _ _

/-- C3, amended: on a backed container, a successful `add_<kind>` with
`overwrite` opens/creates the kind-level subgroup, writes the new payload at
the kind/name path (replacing any previous subgroup content), and — for
images, labels and points — replaces the in-memory entry with the handle
lazily reloaded from the store; for polygons and shapes the in-memory entry
remains the caller's original object, since those payloads are not lazily
loaded. -/
theorem c3_backed_add_reload_amended (sd : SpatialData) (fs : FS) (p : String)
    (st : ZarrStore) (name : String) (eImg eLab ePts ePoly eShp : Element)
    (hb : sd.path = some p) (hst : assocGet fs p = some st)
    (hlg : [kindName .labels] ∈ st.groups)
    (hvi : imgSchemaOk eImg = true) (hvl : labSchemaOk eLab = true)
    (hvp : pointsValid ePts = true) (hvy : polygonsValid ePoly = true)
    (hvs : shapesValid eShp = true)
    (hpi : eImg.persistOk = true) (hpl : eLab.persistOk = true)
    (hpp : ePts.persistOk = true) (hpy : ePoly.persistOk = true)
    (hps : eShp.persistOk = true) :
    ((add_image sd fs name eImg true true).2.2 = none ∧
      assocGet (add_image sd fs name eImg true true).1.images name =
        some (reloadElement eImg) ∧
      fsDataAt (add_image sd fs name eImg true true).2.1 p ["images", name] =
        some eImg) ∧
    ((add_labels sd fs name eLab true true).2.2 = none ∧
      assocGet (add_labels sd fs name eLab true true).1.labels name =
        some (reloadElement eLab) ∧
      fsDataAt (add_labels sd fs name eLab true true).2.1 p ["labels", name] =
        some eLab) ∧
    ((add_points sd fs name ePts true true).2.2 = none ∧
      assocGet (add_points sd fs name ePts true true).1.points name =
        some (reloadElement ePts) ∧
      fsDataAt (add_points sd fs name ePts true true).2.1 p ["points", name] =
        some ePts) ∧
    ((add_polygons sd fs name ePoly true true).2.2 = none ∧
      assocGet (add_polygons sd fs name ePoly true true).1.polygons name =
        some ePoly ∧
      fsDataAt (add_polygons sd fs name ePoly true true).2.1 p ["polygons", name] =
        some ePoly) ∧
    ((add_shapes sd fs name eShp true true).2.2 = none ∧
      assocGet (add_shapes sd fs name eShp true true).1.shapes name =
        some eShp ∧
      fsDataAt (add_shapes sd fs name eShp true true).2.1 p ["shapes", name] =
        some eShp) :=
  ⟨add_image_backed_ov_spec sd fs p st name eImg hb hst hvi hpi,
    add_labels_backed_ov_spec sd fs p st name eLab hb hst hlg hvl hpl,
    add_points_backed_ov_spec sd fs p st name ePts hb hst hvp hpp,
    add_polygons_backed_ov_spec sd fs p st name ePoly hb hst hvy hpy,
    add_shapes_backed_ov_spec sd fs p st name eShp hb hst hvs hps⟩

theorem c3_backed_add_reload_amended_witness :
    ((add_image sdW3 fsW3 "n" elImgOk true true).2.2 = none ∧
      assocGet (add_image sdW3 fsW3 "n" elImgOk true true).1.images "n" =
        some (reloadElement elImgOk) ∧
      fsDataAt (add_image sdW3 fsW3 "n" elImgOk true true).2.1 "w3" ["images", "n"] =
        some elImgOk) ∧
    ((add_labels sdW3 fsW3 "n" elLabOk true true).2.2 = none ∧
      assocGet (add_labels sdW3 fsW3 "n" elLabOk true true).1.labels "n" =
        some (reloadElement elLabOk) ∧
      fsDataAt (add_labels sdW3 fsW3 "n" elLabOk true true).2.1 "w3" ["labels", "n"] =
        some elLabOk) ∧
    ((add_points sdW3 fsW3 "n" elPtsQ true true).2.2 = none ∧
      assocGet (add_points sdW3 fsW3 "n" elPtsQ true true).1.points "n" =
        some (reloadElement elPtsQ) ∧
      fsDataAt (add_points sdW3 fsW3 "n" elPtsQ true true).2.1 "w3" ["points", "n"] =
        some elPtsQ) ∧
    ((add_polygons sdW3 fsW3 "n" elPoly true true).2.2 = none ∧
      assocGet (add_polygons sdW3 fsW3 "n" elPoly true true).1.polygons "n" =
        some elPoly ∧
      fsDataAt (add_polygons sdW3 fsW3 "n" elPoly true true).2.1 "w3" ["polygons", "n"] =
        some elPoly) ∧
    ((add_shapes sdW3 fsW3 "n" elShp true true).2.2 = none ∧
      assocGet (add_shapes sdW3 fsW3 "n" elShp true true).1.shapes "n" =
        some elShp ∧
      fsDataAt (add_shapes sdW3 fsW3 "n" elShp true true).2.1 "w3" ["shapes", "n"] =
        some elShp) :=
  c3_backed_add_reload_amended sdW3 fsW3 "w3" stW3 "n" elImgOk elLabOk elPtsQ
    elPoly elShp rfl rfl (by decide) (by decide) (by decide) (by decide)
    (by decide) (by decide) rfl rfl rfl rfl rfl

theorem entryOR_refl (a : Option Element) : entryOR a a :=
  Or.inl rfl

theorem mapReload_idem (a : Option Element) :
    (a.map reloadElement).map reloadElement = a.map reloadElement := by
  cases a <;> rfl

theorem entryOR_trans (a b c : Option Element) (h1 : entryOR a b)
    (h2 : entryOR b c) : entryOR a c := by
  rcases h1 with h1 | h1 <;> rcases h2 with h2 | h2 <;> subst h1 <;> subst h2
  · exact Or.inl rfl
  · exact Or.inr rfl
  · exact Or.inr rfl
  · exact Or.inr (mapReload_idem a)

theorem add_image_write_mode_spec (sd : SpatialData) (fs : FS) (k : String)
    (img : Element) (hv : sd.images.all (fun kv => imgSchemaOk kv.2) = true) :
    (∀ k', entryOR (assocGet sd.images k')
      (assocGet (add_image sd fs k img false false).1.images k')) ∧
    (add_image sd fs k img false false).1.labels = sd.labels ∧
    (add_image sd fs k img false false).1.points = sd.points ∧
    (add_image sd fs k img false false).1.polygons = sd.polygons ∧
    (add_image sd fs k img false false).1.shapes = sd.shapes ∧
    (add_image sd fs k img false false).1.table = sd.table ∧
    (add_image sd fs k img false false).1.images.all
      (fun kv => imgSchemaOk kv.2) = true := by
  have hred : add_image sd fs k img false false =
      (match sd.path with
      | none => (sd, fs, none)
      | some p =>
        match _init_add_element sd fs k .images false with
        | (fs1, .error err) => (sd, fs1, some err)
        | (fs1, .ok groupPath) =>
          match assocGet sd.images k with
          | none => (sd, fs1, some .internalError)
          | some el =>
            if el.persistOk then
              ((_add_image_in_memory sd k (reloadElement el) true).1,
                fsUpdate fs1 p (fun st => st.writeData (groupPath ++ [k]) el),
                (_add_image_in_memory sd k (reloadElement el) true).2)
            else (sd, fs1, some .persistFailure)) := rfl
  rw [hred]
  split
  · exact ⟨fun k' => entryOR_refl _, rfl, rfl, rfl, rfl, rfl, hv⟩
  next p hp =>
    split
    next fs1 err heq2 =>
      exact ⟨fun k' => entryOR_refl _, rfl, rfl, rfl, rfl, rfl, hv⟩
    next fs1 gp heq2 =>
      split
      · exact ⟨fun k' => entryOR_refl _, rfl, rfl, rfl, rfl, rfl, hv⟩
      next el hel =>
        split
        · have hok : imgSchemaOk el = true :=
            List.all_eq_true.mp hv (k, el) (assocGet_mem sd.images k el hel)
          have h2 := addImageInMemory_ov_valid sd k (reloadElement el)
            (by rw [imgSchemaOk_reload]; exact hok)
          rw [hel] at h2
          simp only [Option.isSome_some, if_true] at h2
          dsimp only
          rw [h2]
          dsimp only
          refine ⟨?_, rfl, rfl, rfl, rfl, rfl, ?_⟩
          · intro k'
            by_cases hk : k' = k
            · subst hk
              right
              rw [hel]
              exact assocGet_set_self _ _ _
            · left
              rw [assocGet_set_ne _ _ _ _ hk, assocGet_del_ne _ _ _ hk]
          · exact assocSet_all _ _ _ _ (assocDel_all _ _ _ hv)
              (by rw [imgSchemaOk_reload]; exact hok)
        · exact ⟨fun k' => entryOR_refl _, rfl, rfl, rfl, rfl, rfl, hv⟩

theorem add_labels_write_mode_spec (sd : SpatialData) (fs : FS) (k : String)
    (lab : Element) (hv : sd.labels.all (fun kv => labSchemaOk kv.2) = true) :
    (∀ k', entryOR (assocGet sd.labels k')
      (assocGet (add_labels sd fs k lab false false).1.labels k')) ∧
    (add_labels sd fs k lab false false).1.images = sd.images ∧
    (add_labels sd fs k lab false false).1.points = sd.points ∧
    (add_labels sd fs k lab false false).1.polygons = sd.polygons ∧
    (add_labels sd fs k lab false false).1.shapes = sd.shapes ∧
    (add_labels sd fs k lab false false).1.table = sd.table ∧
    (add_labels sd fs k lab false false).1.labels.all
      (fun kv => labSchemaOk kv.2) = true := by
  have hred : add_labels sd fs k lab false false =
      (match sd.path with
      | none => (sd, fs, none)
      | some p =>
        match _init_add_element sd fs k .labels false with
        | (fs1, .error err) => (sd, fs1, some err)
        | (fs1, .ok _) =>
          match assocGet sd.labels k with
          | none => (sd, fs1, some .internalError)
          | some el =>
            if el.persistOk then
              ((_add_labels_in_memory sd k (reloadElement el) true).1,
                fsUpdate fs1 p (fun st => st.writeData ["labels", k] el),
                (_add_labels_in_memory sd k (reloadElement el) true).2)
            else (sd, fs1, some .persistFailure)) := rfl
  rw [hred]
  split
  · exact ⟨fun k' => entryOR_refl _, rfl, rfl, rfl, rfl, rfl, hv⟩
  next p hp =>
    split
    next fs1 err heq2 =>
      exact ⟨fun k' => entryOR_refl _, rfl, rfl, rfl, rfl, rfl, hv⟩
    next fs1 gp heq2 =>
      split
      · exact ⟨fun k' => entryOR_refl _, rfl, rfl, rfl, rfl, rfl, hv⟩
      next el hel =>
        split
        · have hok : labSchemaOk el = true :=
            List.all_eq_true.mp hv (k, el) (assocGet_mem sd.labels k el hel)
          have h2 := addLabelsInMemory_ov_valid sd k (reloadElement el)
            (by rw [labSchemaOk_reload]; exact hok)
          rw [hel] at h2
          simp only [Option.isSome_some, if_true] at h2
          dsimp only
          rw [h2]
          dsimp only
          refine ⟨?_, rfl, rfl, rfl, rfl, rfl, ?_⟩
          · intro k'
            by_cases hk : k' = k
            · subst hk
              right
              rw [hel]
              exact assocGet_set_self _ _ _
            · left
              rw [assocGet_set_ne _ _ _ _ hk, assocGet_del_ne _ _ _ hk]
          · exact assocSet_all _ _ _ _ (assocDel_all _ _ _ hv)
              (by rw [labSchemaOk_reload]; exact hok)
        · exact ⟨fun k' => entryOR_refl _, rfl, rfl, rfl, rfl, rfl, hv⟩

theorem add_points_write_mode_spec (sd : SpatialData) (fs : FS) (k : String)
    (pts : Element) (hv : sd.points.all (fun kv => pointsValid kv.2) = true) :
    (∀ k', entryOR (assocGet sd.points k')
      (assocGet (add_points sd fs k pts false false).1.points k')) ∧
    (add_points sd fs k pts false false).1.images = sd.images ∧
    (add_points sd fs k pts false false).1.labels = sd.labels ∧
    (add_points sd fs k pts false false).1.polygons = sd.polygons ∧
    (add_points sd fs k pts false false).1.shapes = sd.shapes ∧
    (add_points sd fs k pts false false).1.table = sd.table ∧
    (add_points sd fs k pts false false).1.points.all
      (fun kv => pointsValid kv.2) = true := by
  have hred : add_points sd fs k pts false false =
      (match sd.path with
      | none => (sd, fs, none)
      | some p =>
        match _init_add_element sd fs k .points false with
        | (fs1, .error err) => (sd, fs1, some err)
        | (fs1, .ok groupPath) =>
          match assocGet sd.points k with
          | none => (sd, fs1, some .internalError)
          | some el =>
            if el.persistOk then
              ((_add_points_in_memory sd k (reloadElement el) true).1,
                fsUpdate fs1 p (fun st => st.writeData (groupPath ++ [k]) el),
                (_add_points_in_memory sd k (reloadElement el) true).2)
            else (sd, fs1, some .persistFailure)) := rfl
  rw [hred]
  split
  · exact ⟨fun k' => entryOR_refl _, rfl, rfl, rfl, rfl, rfl, hv⟩
  next p hp =>
    split
    next fs1 err heq2 =>
      exact ⟨fun k' => entryOR_refl _, rfl, rfl, rfl, rfl, rfl, hv⟩
    next fs1 gp heq2 =>
      split
      · exact ⟨fun k' => entryOR_refl _, rfl, rfl, rfl, rfl, rfl, hv⟩
      next el hel =>
        split
        · have hok : pointsValid el = true :=
            List.all_eq_true.mp hv (k, el) (assocGet_mem sd.points k el hel)
          have h2 := addPointsInMemory_ov_valid sd k (reloadElement el)
            (by rw [pointsValid_reload]; exact hok)
          rw [hel] at h2
          simp only [Option.isSome_some, if_true] at h2
          dsimp only
          rw [h2]
          dsimp only
          refine ⟨?_, rfl, rfl, rfl, rfl, rfl, ?_⟩
          · intro k'
            by_cases hk : k' = k
            · subst hk
              right
              rw [hel]
              exact assocGet_set_self _ _ _
            · left
              rw [assocGet_set_ne _ _ _ _ hk, assocGet_del_ne _ _ _ hk]
          · exact assocSet_all _ _ _ _ (assocDel_all _ _ _ hv)
              (by rw [pointsValid_reload]; exact hok)
        · exact ⟨fun k' => entryOR_refl _, rfl, rfl, rfl, rfl, rfl, hv⟩

theorem add_polygons_write_mode_fst (sd : SpatialData) (fs : FS) (k : String)
    (e : Element) : (add_polygons sd fs k e false false).1 = sd := by
  have hred : add_polygons sd fs k e false false =
      (match sd.path with
      | none => (sd, fs, none)
      | some p =>
        match _init_add_element sd fs k .polygons false with
        | (fs1, .error err) => (sd, fs1, some err)
        | (fs1, .ok groupPath) =>
          match assocGet sd.polygons k with
          | none => (sd, fs1, some .internalError)
          | some el =>
            if el.persistOk then
              (sd, fsUpdate fs1 p (fun st => st.writeData (groupPath ++ [k]) el), none)
            else (sd, fs1, some .persistFailure)) := rfl
  rw [hred]
  split
  · rfl
  next p hp =>
    split
    next fs1 err heq2 => rfl
    next fs1 gp heq2 =>
      split
      · rfl
      next el hel =>
        split
        · rfl
        · rfl

theorem add_shapes_write_mode_fst (sd : SpatialData) (fs : FS) (k : String)
    (e : Element) : (add_shapes sd fs k e false false).1 = sd := by
  have hred : add_shapes sd fs k e false false =
      (match sd.path with
      | none => (sd, fs, none)
      | some p =>
        match _init_add_element sd fs k .shapes false with
        | (fs1, .error err) => (sd, fs1, some err)
        | (fs1, .ok groupPath) =>
          match assocGet sd.shapes k with
          | none => (sd, fs1, some .internalError)
          | some el =>
            if el.persistOk then
              (sd, fsUpdate fs1 p (fun st => st.writeData (groupPath ++ [k]) el), none)
            else (sd, fs1, some .persistFailure)) := rfl
  rw [hred]
  split
  · rfl
  next p hp =>
    split
    next fs1 err heq2 => rfl
    next fs1 gp heq2 =>
      split
      · rfl
      next el hel =>
        split
        · rfl
        · rfl

theorem writeImagesLoop_spec : ∀ (ks : List String) (sd : SpatialData) (fs : FS),
    sd.images.all (fun kv => imgSchemaOk kv.2) = true →
    (∀ k', entryOR (assocGet sd.images k')
      (assocGet (writeImagesLoop ks sd fs).1.images k')) ∧
    (writeImagesLoop ks sd fs).1.labels = sd.labels ∧
    (writeImagesLoop ks sd fs).1.points = sd.points ∧
    (writeImagesLoop ks sd fs).1.polygons = sd.polygons ∧
    (writeImagesLoop ks sd fs).1.shapes = sd.shapes ∧
    (writeImagesLoop ks sd fs).1.table = sd.table ∧
    (writeImagesLoop ks sd fs).1.images.all (fun kv => imgSchemaOk kv.2) = true := by
  intro ks
  induction ks with
  | nil =>
    intro sd fs hv
    exact ⟨fun k' => entryOR_refl _, rfl, rfl, rfl, rfl, rfl, hv⟩
  | cons k t ih =>
    intro sd fs hv
    unfold writeImagesLoop
    split
    · exact ⟨fun k' => entryOR_refl _, rfl, rfl, rfl, rfl, rfl, hv⟩
    next img himg =>
      have hstep := add_image_write_mode_spec sd fs k img hv
      split
      next sd' fs' e heq =>
        rw [heq] at hstep
        exact hstep
      next sd' fs' heq =>
        rw [heq] at hstep
        obtain ⟨hor, hl, hpt, hpol, hsh, htb, hv'⟩ := hstep
        obtain ⟨hor2, hl2, hpt2, hpol2, hsh2, htb2, hv2⟩ := ih sd' fs' hv'
        refine ⟨?_, ?_, ?_, ?_, ?_, ?_, hv2⟩
        · intro k'
          exact entryOR_trans _ _ _ (hor k') (hor2 k')
        · exact hl2.trans hl
        · exact hpt2.trans hpt
        · exact hpol2.trans hpol
        · exact hsh2.trans hsh
        · exact htb2.trans htb

theorem writeLabelsLoop_spec : ∀ (ks : List String) (sd : SpatialData) (fs : FS),
    sd.labels.all (fun kv => labSchemaOk kv.2) = true →
    (∀ k', entryOR (assocGet sd.labels k')
      (assocGet (writeLabelsLoop ks sd fs).1.labels k')) ∧
    (writeLabelsLoop ks sd fs).1.images = sd.images ∧
    (writeLabelsLoop ks sd fs).1.points = sd.points ∧
    (writeLabelsLoop ks sd fs).1.polygons = sd.polygons ∧
    (writeLabelsLoop ks sd fs).1.shapes = sd.shapes ∧
    (writeLabelsLoop ks sd fs).1.table = sd.table ∧
    (writeLabelsLoop ks sd fs).1.labels.all (fun kv => labSchemaOk kv.2) = true := by
  intro ks
  induction ks with
  | nil =>
    intro sd fs hv
    exact ⟨fun k' => entryOR_refl _, rfl, rfl, rfl, rfl, rfl, hv⟩
  | cons k t ih =>
    intro sd fs hv
    unfold writeLabelsLoop
    split
    · exact ⟨fun k' => entryOR_refl _, rfl, rfl, rfl, rfl, rfl, hv⟩
    next lab hlab =>
      have hstep := add_labels_write_mode_spec sd fs k lab hv
      split
      next sd' fs' e heq =>
        rw [heq] at hstep
        exact hstep
      next sd' fs' heq =>
        rw [heq] at hstep
        obtain ⟨hor, hi, hpt, hpol, hsh, htb, hv'⟩ := hstep
        obtain ⟨hor2, hi2, hpt2, hpol2, hsh2, htb2, hv2⟩ := ih sd' fs' hv'
        refine ⟨?_, ?_, ?_, ?_, ?_, ?_, hv2⟩
        · intro k'
          exact entryOR_trans _ _ _ (hor k') (hor2 k')
        · exact hi2.trans hi
        · exact hpt2.trans hpt
        · exact hpol2.trans hpol
        · exact hsh2.trans hsh
        · exact htb2.trans htb

theorem writePointsLoop_spec : ∀ (ks : List String) (sd : SpatialData) (fs : FS),
    sd.points.all (fun kv => pointsValid kv.2) = true →
    (∀ k', entryOR (assocGet sd.points k')
      (assocGet (writePointsLoop ks sd fs).1.points k')) ∧
    (writePointsLoop ks sd fs).1.images = sd.images ∧
    (writePointsLoop ks sd fs).1.labels = sd.labels ∧
    (writePointsLoop ks sd fs).1.polygons = sd.polygons ∧
    (writePointsLoop ks sd fs).1.shapes = sd.shapes ∧
    (writePointsLoop ks sd fs).1.table = sd.table ∧
    (writePointsLoop ks sd fs).1.points.all (fun kv => pointsValid kv.2) = true := by
  intro ks
  induction ks with
  | nil =>
    intro sd fs hv
    exact ⟨fun k' => entryOR_refl _, rfl, rfl, rfl, rfl, rfl, hv⟩
  | cons k t ih =>
    intro sd fs hv
    unfold writePointsLoop
    split
    · exact ⟨fun k' => entryOR_refl _, rfl, rfl, rfl, rfl, rfl, hv⟩
    next pts hpts =>
      have hstep := add_points_write_mode_spec sd fs k pts hv
      split
      next sd' fs' e heq =>
        rw [heq] at hstep
        exact hstep
      next sd' fs' heq =>
        rw [heq] at hstep
        obtain ⟨hor, hi, hl, hpol, hsh, htb, hv'⟩ := hstep
        obtain ⟨hor2, hi2, hl2, hpol2, hsh2, htb2, hv2⟩ := ih sd' fs' hv'
        refine ⟨?_, ?_, ?_, ?_, ?_, ?_, hv2⟩
        · intro k'
          exact entryOR_trans _ _ _ (hor k') (hor2 k')
        · exact hi2.trans hi
        · exact hl2.trans hl
        · exact hpol2.trans hpol
        · exact hsh2.trans hsh
        · exact htb2.trans htb

theorem writePolygonsLoop_fst : ∀ (ks : List String) (sd : SpatialData) (fs : FS),
    (writePolygonsLoop ks sd fs).1 = sd := by
  intro ks
  induction ks with
  | nil => intro sd fs; rfl
  | cons k t ih =>
    intro sd fs
    unfold writePolygonsLoop
    split
    · rfl
    next el hel =>
      have hstep := add_polygons_write_mode_fst sd fs k el
      split
      next sd' fs' e heq =>
        rw [heq] at hstep
        exact hstep
      next sd' fs' heq =>
        rw [heq] at hstep
        exact (ih sd' fs').trans hstep

theorem writeShapesLoop_fst : ∀ (ks : List String) (sd : SpatialData) (fs : FS),
    (writeShapesLoop ks sd fs).1 = sd := by
  intro ks
  induction ks with
  | nil => intro sd fs; rfl
  | cons k t ih =>
    intro sd fs
    unfold writeShapesLoop
    split
    · rfl
    next el hel =>
      have hstep := add_shapes_write_mode_fst sd fs k el
      split
      next sd' fs' e heq =>
        rw [heq] at hstep
        exact hstep
      next sd' fs' heq =>
        rw [heq] at hstep
        exact (ih sd' fs').trans hstep

theorem tablePhase_fst (p : String) (sd : SpatialData) (fs : FS) :
    (tablePhase p sd fs).1 = sd := by
  unfold tablePhase
  split
  · rfl
  · split_ifs <;> rfl

theorem imagesPhase_spec (p : String) (sd : SpatialData) (fs : FS)
    (hv : sd.images.all (fun kv => imgSchemaOk kv.2) = true) :
    (∀ k', entryOR (assocGet sd.images k')
      (assocGet (imagesPhase p sd fs).1.images k')) ∧
    (imagesPhase p sd fs).1.labels = sd.labels ∧
    (imagesPhase p sd fs).1.points = sd.points ∧
    (imagesPhase p sd fs).1.polygons = sd.polygons ∧
    (imagesPhase p sd fs).1.shapes = sd.shapes ∧
    (imagesPhase p sd fs).1.table = sd.table := by
  unfold imagesPhase
  split_ifs
  · have h := writeImagesLoop_spec (sd.images.map Prod.fst) sd
      (fsUpdate fs p (fun st => st.createGroup ["images"])) hv
    exact ⟨h.1, h.2.1, h.2.2.1, h.2.2.2.1, h.2.2.2.2.1, h.2.2.2.2.2.1⟩
  · exact ⟨fun k' => entryOR_refl _, rfl, rfl, rfl, rfl, rfl⟩

theorem labelsPhase_spec (p : String) (sd : SpatialData) (fs : FS)
    (hv : sd.labels.all (fun kv => labSchemaOk kv.2) = true) :
    (∀ k', entryOR (assocGet sd.labels k')
      (assocGet (labelsPhase p sd fs).1.labels k')) ∧
    (labelsPhase p sd fs).1.images = sd.images ∧
    (labelsPhase p sd fs).1.points = sd.points ∧
    (labelsPhase p sd fs).1.polygons = sd.polygons ∧
    (labelsPhase p sd fs).1.shapes = sd.shapes ∧
    (labelsPhase p sd fs).1.table = sd.table := by
  unfold labelsPhase
  split_ifs
  · have h := writeLabelsLoop_spec (sd.labels.map Prod.fst) sd
      (fsUpdate fs p (fun st => st.createGroup ["labels"])) hv
    exact ⟨h.1, h.2.1, h.2.2.1, h.2.2.2.1, h.2.2.2.2.1, h.2.2.2.2.2.1⟩
  · exact ⟨fun k' => entryOR_refl _, rfl, rfl, rfl, rfl, rfl⟩

theorem pointsPhase_spec (p : String) (sd : SpatialData) (fs : FS)
    (hv : sd.points.all (fun kv => pointsValid kv.2) = true) :
    (∀ k', entryOR (assocGet sd.points k')
      (assocGet (pointsPhase p sd fs).1.points k')) ∧
    (pointsPhase p sd fs).1.images = sd.images ∧
    (pointsPhase p sd fs).1.labels = sd.labels ∧
    (pointsPhase p sd fs).1.polygons = sd.polygons ∧
    (pointsPhase p sd fs).1.shapes = sd.shapes ∧
    (pointsPhase p sd fs).1.table = sd.table := by
  unfold pointsPhase
  split_ifs
  · have h := writePointsLoop_spec (sd.points.map Prod.fst) sd
      (fsUpdate fs p (fun st => st.createGroup ["points"])) hv
    exact ⟨h.1, h.2.1, h.2.2.1, h.2.2.2.1, h.2.2.2.2.1, h.2.2.2.2.2.1⟩
  · exact ⟨fun k' => entryOR_refl _, rfl, rfl, rfl, rfl, rfl⟩

theorem polygonsPhase_fst (p : String) (sd : SpatialData) (fs : FS) :
    (polygonsPhase p sd fs).1 = sd := by
  unfold polygonsPhase
  split_ifs
  · exact writePolygonsLoop_fst _ sd _
  · rfl

theorem shapesPhase_fst (p : String) (sd : SpatialData) (fs : FS) :
    (shapesPhase p sd fs).1 = sd := by
  unfold shapesPhase
  split_ifs
  · exact writeShapesLoop_fst _ sd _
  · rfl


theorem writeTry_spec (p : String) (sd : SpatialData) (fs : FS)
    (hv : validColls sd = true) :
    (∀ k, entryOR (assocGet sd.images k) (assocGet (writeTry p sd fs).1.images k)) ∧
    (∀ k, entryOR (assocGet sd.labels k) (assocGet (writeTry p sd fs).1.labels k)) ∧
    (∀ k, entryOR (assocGet sd.points k) (assocGet (writeTry p sd fs).1.points k)) ∧
    (writeTry p sd fs).1.polygons = sd.polygons ∧
    (writeTry p sd fs).1.shapes = sd.shapes ∧
    (writeTry p sd fs).1.table = sd.table := by
  simp only [validColls, Bool.and_eq_true] at hv
  obtain ⟨⟨hvi, hvl⟩, hvp⟩ := hv
  unfold writeTry
  split
  next sd1 fs1 e heq =>
    have s1 := imagesPhase_spec p sd fs hvi
    rw [heq] at s1
    exact ⟨s1.1, fun kk => Or.inl (congrArg (fun l => assocGet l kk) s1.2.1),
      fun kk => Or.inl (congrArg (fun l => assocGet l kk) s1.2.2.1),
      s1.2.2.2.1, s1.2.2.2.2.1, s1.2.2.2.2.2⟩
  next sd1 fs1 heq =>
    have s1 := imagesPhase_spec p sd fs hvi
    rw [heq] at s1
    have a1 : ∀ k, entryOR (assocGet sd.images k) (assocGet sd1.images k) := s1.1
    have b1 : sd1.labels = sd.labels := s1.2.1
    have c1 : sd1.points = sd.points := s1.2.2.1
    have d1 : sd1.polygons = sd.polygons := s1.2.2.2.1
    have e1 : sd1.shapes = sd.shapes := s1.2.2.2.2.1
    have f1 : sd1.table = sd.table := s1.2.2.2.2.2
    split
    next sd2 fs2 e heq2 =>
      have s2 := labelsPhase_spec p sd1 fs1 (by rw [b1]; exact hvl)
      rw [heq2] at s2
      refine ⟨?_, ?_, ?_, ?_, ?_, ?_⟩
      · intro kk
        have h : sd2.images = sd1.images := s2.2.1
        rw [show ((sd2, fs2, some e) : SDResult).1.images = sd2.images from rfl, h]
        exact a1 kk
      · intro kk
        have h := s2.1 kk
        rw [b1] at h
        exact h
      · intro kk
        have h : sd2.points = sd1.points := s2.2.2.1
        exact Or.inl ((congrArg (fun l => assocGet l kk) h).trans
          (congrArg (fun l => assocGet l kk) c1))
      · exact (s2.2.2.2.1 : sd2.polygons = sd1.polygons).trans d1
      · exact (s2.2.2.2.2.1 : sd2.shapes = sd1.shapes).trans e1
      · exact (s2.2.2.2.2.2 : sd2.table = sd1.table).trans f1
    next sd2 fs2 heq2 =>
      have s2 := labelsPhase_spec p sd1 fs1 (by rw [b1]; exact hvl)
      rw [heq2] at s2
      have a2 : ∀ k, entryOR (assocGet sd.labels k) (assocGet sd2.labels k) := by
        intro kk
        have h := s2.1 kk
        rw [b1] at h
        exact h
      have b2 : sd2.images = sd1.images := s2.2.1
      have c2 : sd2.points = sd.points := (s2.2.2.1 : sd2.points = sd1.points).trans c1
      have d2 : sd2.polygons = sd.polygons :=
        (s2.2.2.2.1 : sd2.polygons = sd1.polygons).trans d1
      have e2 : sd2.shapes = sd.shapes :=
        (s2.2.2.2.2.1 : sd2.shapes = sd1.shapes).trans e1
      have f2 : sd2.table = sd.table :=
        (s2.2.2.2.2.2 : sd2.table = sd1.table).trans f1
      have a1' : ∀ k, entryOR (assocGet sd.images k) (assocGet sd2.images k) := by
        intro kk
        rw [b2]
        exact a1 kk
      split
      next sd3 fs3 e heq3 =>
        have s3 := pointsPhase_spec p sd2 fs2 (by rw [c2]; exact hvp)
        rw [heq3] at s3
        refine ⟨?_, ?_, ?_, ?_, ?_, ?_⟩
        · intro kk
          have h : sd3.images = sd2.images := s3.2.1
          rw [show ((sd3, fs3, some e) : SDResult).1.images = sd3.images from rfl, h]
          exact a1' kk
        · intro kk
          have h : sd3.labels = sd2.labels := s3.2.2.1
          rw [show ((sd3, fs3, some e) : SDResult).1.labels = sd3.labels from rfl, h]
          exact a2 kk
        · intro kk
          have h := s3.1 kk
          rw [c2] at h
          exact h
        · exact (s3.2.2.2.1 : sd3.polygons = sd2.polygons).trans d2
        · exact (s3.2.2.2.2.1 : sd3.shapes = sd2.shapes).trans e2
        · exact (s3.2.2.2.2.2 : sd3.table = sd2.table).trans f2
      next sd3 fs3 heq3 =>
        have s3 := pointsPhase_spec p sd2 fs2 (by rw [c2]; exact hvp)
        rw [heq3] at s3
        have a3 : ∀ k, entryOR (assocGet sd.points k) (assocGet sd3.points k) := by
          intro kk
          have h := s3.1 kk
          rw [c2] at h
          exact h
        have b3 : sd3.images = sd2.images := s3.2.1
        have c3 : sd3.labels = sd2.labels := s3.2.2.1
        have d3 : sd3.polygons = sd.polygons :=
          (s3.2.2.2.1 : sd3.polygons = sd2.polygons).trans d2
        have e3 : sd3.shapes = sd.shapes :=
          (s3.2.2.2.2.1 : sd3.shapes = sd2.shapes).trans e2
        have f3 : sd3.table = sd.table :=
          (s3.2.2.2.2.2 : sd3.table = sd2.table).trans f2
        have a1'' : ∀ k, entryOR (assocGet sd.images k) (assocGet sd3.images k) := by
          intro kk
          rw [b3]
          exact a1' kk
        have a2' : ∀ k, entryOR (assocGet sd.labels k) (assocGet sd3.labels k) := by
          intro kk
          rw [c3]
          exact a2 kk
        split
        next sd4 fs4 e heq4 =>
          have g4 := polygonsPhase_fst p sd3 fs3
          rw [heq4] at g4
          have g4' : sd4 = sd3 := g4
          refine ⟨?_, ?_, ?_, ?_, ?_, ?_⟩
          · intro kk
            rw [g4']
            exact a1'' kk
          · intro kk
            rw [g4']
            exact a2' kk
          · intro kk
            rw [g4']
            exact a3 kk
          · rw [g4']
            exact d3
          · rw [g4']
            exact e3
          · rw [g4']
            exact f3
        next sd4 fs4 heq4 =>
          have g4 := polygonsPhase_fst p sd3 fs3
          rw [heq4] at g4
          split
          next sd5 fs5 e heq5 =>
            have g5 := shapesPhase_fst p sd4 fs4
            rw [heq5] at g5
            have g45 : sd5 = sd3 := g5.trans g4
            refine ⟨?_, ?_, ?_, ?_, ?_, ?_⟩
            · intro kk
              rw [g45]
              exact a1'' kk
            · intro kk
              rw [g45]
              exact a2' kk
            · intro kk
              rw [g45]
              exact a3 kk
            · rw [g45]
              exact d3
            · rw [g45]
              exact e3
            · rw [g45]
              exact f3
          next sd5 fs5 heq5 =>
            have g5 := shapesPhase_fst p sd4 fs4
            rw [heq5] at g5
            have g45 : sd5 = sd3 := g5.trans g4
            have gt := tablePhase_fst p sd5 fs5
            refine ⟨?_, ?_, ?_, ?_, ?_, ?_⟩
            · intro kk
              rw [gt, g45]
              exact a1'' kk
            · intro kk
              rw [gt, g45]
              exact a2' kk
            · intro kk
              rw [gt, g45]
              exact a3 kk
            · rw [gt, g45]
              exact d3
            · rw [gt, g45]
              exact e3
            · rw [gt, g45]
              exact f3

/-- C1, amended: when `write(location, overwrite)` on an unbacked container of
schema-valid elements raises any error, the transition to Backed is rolled
back — `path` returns to `None` — and the error is re-raised; but the
in-memory state is not restored exactly: each images/labels/points entry is
either exactly as before the call or replaced by its lazily-reloaded handle
(entries persisted before the failure stay reloaded), while the polygons and
shapes collections and the table are unchanged. -/
theorem c1_write_failure_rollback_amended (sd : SpatialData) (fs : FS)
    (loc : String) (ov : Bool) (err : SDError) (k : String)
    (hunb : sd.path = none) (hv : validColls sd = true)
    (hfail : (SpatialData.write sd fs loc ov).2.2 = some err) :
    (SpatialData.write sd fs loc ov).1.path = none ∧
    entryOR (assocGet sd.images k)
      (assocGet (SpatialData.write sd fs loc ov).1.images k) ∧
    entryOR (assocGet sd.labels k)
      (assocGet (SpatialData.write sd fs loc ov).1.labels k) ∧
    entryOR (assocGet sd.points k)
      (assocGet (SpatialData.write sd fs loc ov).1.points k) ∧
    (SpatialData.write sd fs loc ov).1.polygons = sd.polygons ∧
    (SpatialData.write sd fs loc ov).1.shapes = sd.shapes ∧
    (SpatialData.write sd fs loc ov).1.table = sd.table := by
  have h1 : ¬ (sd.path = some loc) := by
    rw [hunb]
    simp
  by_cases h2 : (!ov && storeExists fs loc) = true
  · have hred : SpatialData.write sd fs loc ov = (sd, fs, some .alreadyExists) := by
      unfold SpatialData.write
      rw [if_neg h1, if_pos h2]
    rw [hred]
    exact ⟨hunb, entryOR_refl _, entryOR_refl _, entryOR_refl _, rfl, rfl, rfl⟩
  · have hred : SpatialData.write sd fs loc ov =
        (match writeTry loc { sd with path := some loc }
          (fsSet fs loc ZarrStore.emptyStore) with
        | (sd2, fs2, some e) => ({ sd2 with path := none }, fs2, some e)
        | (sd2, fs2, none) => (sd2, fs2, none)) := by
      unfold SpatialData.write
      rw [if_neg h1, if_neg h2]
    have hs := writeTry_spec loc { sd with path := some loc }
      (fsSet fs loc ZarrStore.emptyStore)
      (show validColls { sd with path := some loc } = true from hv)
    rcases hww : writeTry loc { sd with path := some loc }
      (fsSet fs loc ZarrStore.emptyStore) with ⟨sd2, fs2, e2⟩
    rw [hww] at hs
    rw [hred, hww] at hfail ⊢
    cases e2 with
    | none => simp at hfail
    | some e =>
      dsimp only
      refine ⟨rfl, ?_, ?_, ?_, ?_, ?_, ?_⟩
      · exact hs.1 k
      · exact hs.2.1 k
      · exact hs.2.2.1 k
      · exact hs.2.2.2.1
      · exact hs.2.2.2.2.1
      · exact hs.2.2.2.2.2

theorem c1_write_failure_rollback_amended_witness :
    (SpatialData.write sdC1 fsEmpty "loc" false).1.path = none ∧
    entryOR (assocGet sdC1.images "a")
      (assocGet (SpatialData.write sdC1 fsEmpty "loc" false).1.images "a") ∧
    entryOR (assocGet sdC1.labels "a")
      (assocGet (SpatialData.write sdC1 fsEmpty "loc" false).1.labels "a") ∧
    entryOR (assocGet sdC1.points "a")
      (assocGet (SpatialData.write sdC1 fsEmpty "loc" false).1.points "a") ∧
    (SpatialData.write sdC1 fsEmpty "loc" false).1.polygons = sdC1.polygons ∧
    (SpatialData.write sdC1 fsEmpty "loc" false).1.shapes = sdC1.shapes ∧
    (SpatialData.write sdC1 fsEmpty "loc" false).1.table = sdC1.table :=
  c1_write_failure_rollback_amended sdC1 fsEmpty "loc" false .persistFailure "a"
    rfl (by decide) (by decide)
